import Mathlib

/-!
# ink: multisample render surface, render plan and SVG coordinate stack

A shallow embedding of `render/msaa.go`, `render/plan.go` and the coordinate
stack of `svg/builder.go`, followed by the properties established for them.

Conventions.
* Go `int` is a 64-bit two's-complement integer: values are `Int`, and the
  arithmetic of `msaa.go` on sizes and indices goes through `wrap64`. The index
  of `builder.pop` stays within one of the length of a slice held in memory and
  is a `Nat`.
* `int32(e)` conversions go through `wrap32`.
* A Go run-time panic is a value of `Panic` returned through `Except`. The
  platform is linux/amd64: `make` panics above `maxAlloc = 2^48` bytes. Memory
  exhaustion of the host (a fatal error, not a panic) is outside the model.
* `float32` values are kept abstract: a type parameter together with the
  operations the source applies to them.
-/

namespace Ink

/-! ## Go run-time model -/

/-- Run-time faults of the Go code (panics), plus fuel exhaustion of a model loop. -/
inductive Panic where
  | indexOutOfRange
  | makeLenOutOfRange
  | imageTooLarge
  | outOfFuel
deriving DecidableEq, Repr

/-- Reduction of a mathematical integer to the 64-bit two's-complement value Go stores. -/
def wrap64 (a : Int) : Int := (a + 2 ^ 63) % 2 ^ 64 - 2 ^ 63

/-- Conversion `int32(e)`: reduction to a 32-bit two's-complement value. -/
def wrap32 (a : Int) : Int := (a + 2 ^ 31) % 2 ^ 32 - 2 ^ 31

/-- Go `a + b` on `int`. -/
def iadd (a b : Int) : Int := wrap64 (a + b)

/-- Go `a - b` on `int`. -/
def isub (a b : Int) : Int := wrap64 (a - b)

/-- Go `a * b` on `int`. -/
def imul (a b : Int) : Int := wrap64 (a * b)

/-- The constant `maxAlloc` of the Go runtime on linux/amd64 (48 address bits): the
largest size in bytes that `makeslice` accepts. -/
def maxAlloc : Int := 2 ^ 48

/-- Go `make([]uint8, n)` (runtime `makeslice`, element size 1): `n` zero bytes; panics
with "len out of range" when `n` is negative or exceeds `maxAlloc`. -/
def make (n : Int) : Except Panic (List Nat) :=
  if n < 0 ∨ maxAlloc < n then .error .makeLenOutOfRange
  else .ok (List.replicate n.toNat 0)

/-- Go `s[i]` on a byte slice with an `int` index: panics outside `0 ≤ i < len(s)`. -/
def index (s : List Nat) (i : Int) : Except Panic Nat :=
  if i < 0 then .error .indexOutOfRange
  else match s[i.toNat]? with
    | some v => .ok v
    | none => .error .indexOutOfRange

/-- Go `for k := 0; k < n; k++ { s = body(k, s) }` over an `int` counter; the loop
stops at the first panic. The counter stays below `n`, so `k++` never wraps. -/
def forRange {σ : Type} (n : Int) (body : Int → σ → Except Panic σ) (s : σ) : Except Panic σ :=
  (List.range n.toNat).foldlM (fun s (k : Nat) => body (k : Int) s) s

/-- The `float32` operations the source uses, over an abstract carrier `F`:
`float32(n)`, `a * b`, `a / b` and the conversion `int(a)`. -/
structure Float32 (F : Type) where
  ofInt : Int → F
  mul : F → F → F
  div : F → F → F
  toInt : F → Int

/-! ## svg/builder.go -/

/-- Type `dd.XY`: a pair of `float32` coordinates. -/
structure XY (F : Type) where
  X : F
  Y : F
deriving DecidableEq, Repr

/-- Type `builder` of `svg/builder.go`. `F` stands for `float32`, `P` for `dd.Path`. -/
structure builder (F P : Type) where
  width : F
  height : F
  stack : List F
  path : P

/-- The loop of `builder.pop` (builder.go:68-73), at index `i` with the points collected
so far: `stack[i]` and `stack[i+1]` panic when the index is out of range. The first
argument is fuel. -/
def builder.popLoop {F P : Type} (fl : Float32 F) (p : builder F P) :
    Nat → Nat → List (XY F) → Except Panic (List (XY F))
  | 0, _, _ => .error .outOfFuel
  | fuel + 1, i, points =>
    if i < p.stack.length then
      match p.stack[i]? with
      | none => .error .indexOutOfRange
      | some a =>
        match p.stack[i + 1]? with
        | none => .error .indexOutOfRange
        | some b =>
          builder.popLoop fl p fuel (i + 2) (points ++ [⟨fl.div a p.width, fl.div b p.height⟩])
    else .ok points

/-- Method `builder.pop` (builder.go:66-76): returns the points and the builder with
`stack = nil`. The fuel `len(stack) + 1` exceeds the number of iterations. -/
def builder.pop {F P : Type} (fl : Float32 F) (p : builder F P) :
    Except Panic (List (XY F) × builder F P) :=
  match builder.popLoop fl p (p.stack.length + 1) 0 [] with
  | .error e => .error e
  | .ok points => .ok (points, { p with stack := [] })

/-- Method `builder.Coord` (builder.go:78-85) after a successful `strconv.ParseFloat`:
`v` is the parsed value converted to `float32`. -/
def builder.Coord {F P : Type} (p : builder F P) (v : F) : builder F P :=
  { p with stack := p.stack ++ [v] }

/-! ## Standard library: image, image/color -/

/-- Type `color.RGBA`: four `uint8` channels. -/
structure color.RGBA where
  R : Nat
  G : Nat
  B : Nat
  A : Nat
deriving DecidableEq, Repr

/-- Channel `c` (0 = R, 1 = G, 2 = B, otherwise A) of a colour. -/
def color.RGBA.channel (p : color.RGBA) (c : Nat) : Nat :=
  if c = 0 then p.R else if c = 1 then p.G else if c = 2 then p.B else p.A

/-- Type `image.Rectangle`, the points `Min` and `Max` flattened. -/
structure image.Rectangle where
  MinX : Int
  MinY : Int
  MaxX : Int
  MaxY : Int
deriving DecidableEq, Repr

/-- Function `image.Rect(x0, y0, x1, y1)`: the rectangle with sorted corners. -/
def image.Rect (x0 y0 x1 y1 : Int) : image.Rectangle :=
  let (x0, x1) := if x0 > x1 then (x1, x0) else (x0, x1)
  let (y0, y1) := if y0 > y1 then (y1, y0) else (y0, y1)
  ⟨x0, y0, x1, y1⟩

/-- Method `Rectangle.Dx`: `r.Max.X - r.Min.X` on `int`. -/
def image.Rectangle.Dx (r : image.Rectangle) : Int := isub r.MaxX r.MinX

/-- Method `Rectangle.Dy`: `r.Max.Y - r.Min.Y` on `int`. -/
def image.Rectangle.Dy (r : image.Rectangle) : Int := isub r.MaxY r.MinY

/-- Function `mul3NonNeg(x, y, z)` of package `image`: the product, or -1 when an
argument is negative, when `x * y` does not fit in 64 unsigned bits, when `x * y * z`
does not, or when the product is not a non-negative `int`. -/
def image.mul3NonNeg (x y z : Int) : Int :=
  if x < 0 ∨ y < 0 ∨ z < 0 then -1
  else if 2 ^ 64 ≤ x * y then -1
  else if 2 ^ 64 ≤ x * y * z then -1
  else if 2 ^ 63 ≤ x * y * z then -1
  else x * y * z

/-- The test `Point{x, y}.In(r)`. -/
def image.Rectangle.Has (r : image.Rectangle) (x y : Int) : Bool :=
  decide (r.MinX ≤ x) && decide (x < r.MaxX) && decide (r.MinY ≤ y) && decide (y < r.MaxY)

/-- Type `image.RGBA`, at the level of its contract: the bounds and the colour stored
for each point (the byte layout `Pix`/`Stride` is not exposed by the code under study). -/
structure image.RGBA where
  Rect : image.Rectangle
  px : Int → Int → color.RGBA

/-- Function `image.NewRGBA(r)`: panics ("huge or negative dimensions") when
`pixelBufferLength(4, r)`, that is `mul3NonNeg(4, r.Dx(), r.Dy())`, is negative;
otherwise allocates the pixel buffer with `make` and returns an all-zero image with
bounds `r`. -/
def image.NewRGBA (r : image.Rectangle) : Except Panic image.RGBA :=
  if image.mul3NonNeg 4 r.Dx r.Dy < 0 then .error .imageTooLarge
  else
    match make (image.mul3NonNeg 4 r.Dx r.Dy) with
    | .error e => .error e
    | .ok _ => .ok ⟨r, fun _ _ => ⟨0, 0, 0, 0⟩⟩

/-- Method `(*image.RGBA).SetRGBA(x, y, c)`: stores `c` at `(x, y)` when the point is
inside the bounds, and does nothing otherwise. -/
def image.RGBA.SetRGBA (img : image.RGBA) (x y : Int) (c : color.RGBA) : image.RGBA :=
  if img.Rect.Has x y then
    { img with px := fun x' y' => if x' = x ∧ y' = y then c else img.px x' y' }
  else img

/-- Method `(*image.RGBA).RGBAAt(x, y)`: the stored colour, or the zero colour outside
the bounds. -/
def image.RGBA.RGBAAt (img : image.RGBA) (x y : Int) : color.RGBA :=
  if img.Rect.Has x y then img.px x y else ⟨0, 0, 0, 0⟩

/-! ## OpenGL model

The wrappers `glGenTextures`, `glBindFramebuffer`, ... that `msaa.go` calls are defined
elsewhere in package `render`. They are modelled over an explicit GL state that holds
the contents of every texture, the colour attachment of every framebuffer, the current
bindings and clear colour, and the list of calls issued so far. The contents of a
multisampled texture are kept at the level of one colour per pixel. -/

/-- The `gl.*` constants used by `msaa.go`. -/
inductive gl where
  | FRAMEBUFFER
  | DRAW_FRAMEBUFFER
  | READ_FRAMEBUFFER
  | TEXTURE_2D
  | TEXTURE_2D_MULTISAMPLE
  | RGBA
  | UNSIGNED_BYTE
  | TEXTURE_MAG_FILTER
  | TEXTURE_MIN_FILTER
  | TEXTURE_WRAP_S
  | TEXTURE_WRAP_T
  | LINEAR
  | REPEAT
  | COLOR_ATTACHMENT0
  | COLOR_BUFFER_BIT
deriving DecidableEq, Repr

/-- Modelled from the spec: the GL objects behind the wrappers are not under src/.
Storage of a texture: its size, its sample count (0 for a plain 2D texture) and the
colour of each pixel; row 0 is the bottom row. -/
structure Texture where
  width : Int
  height : Int
  samples : Int
  texel : Int → Int → color.RGBA

/-- Modelled from the spec: part of the GL model. A pixel position inside the storage
of a texture. -/
def Texture.Has (t : Texture) (x y : Int) : Bool :=
  decide (0 ≤ x) && decide (x < t.width) && decide (0 ≤ y) && decide (y < t.height)

/-- Modelled from the spec: part of the GL model. One call of a `gl*` wrapper, as
recorded in the context. -/
inductive GLCall where
  | GenTextures (name : Nat)
  | GenFramebuffers (name : Nat)
  | BindFramebuffer (target : gl) (name : Nat)
  | BindTexture (target : gl) (name : Nat)
  | TexImage2D (target : gl) (width height : Int)
  | TexParameteri (target pname param : gl)
  | FramebufferTexture2D (target attachment textarget : gl) (texture : Nat)
  | TexImage2DMultisample (target : gl) (samples width height : Int)
  | ClearColor (r g b a : Nat)
  | Clear (mask : gl)
  | BlitFramebuffer (sx0 sy0 sx1 sy1 dx0 dy0 dx1 dy1 : Int)
  | ReadPixels (x y width height : Int)
  | DeleteTextures (name : Nat)
  | DeleteFramebuffers (name : Nat)
deriving DecidableEq, Repr

/-- Modelled from the spec: the GL context the wrappers act on is not under src/. It
holds device limits, name counters, object stores, bindings, clear colour
and the calls issued so far. `textures n = none` means that name `n` has no storage;
`colorAttachment f` is the texture attached as colour attachment 0 of framebuffer `f`. -/
structure Context where
  maxSamples : Int
  maxTextureSize : Int
  lastTexture : Nat
  lastFramebuffer : Nat
  textures : Nat → Option Texture
  colorAttachment : Nat → Nat
  texture2D : Nat
  texture2DMultisample : Nat
  drawFramebuffer : Nat
  readFramebuffer : Nat
  clearColor : color.RGBA
  calls : List GLCall

/-- Modelled from the spec: part of the GL model. A context with no objects; device
limits 16384 (texture size) and 8 (samples). -/
def Context.start : Context :=
  { maxSamples := 8, maxTextureSize := 16384, lastTexture := 0, lastFramebuffer := 0,
    textures := fun _ => none, colorAttachment := fun _ => 0,
    texture2D := 0, texture2DMultisample := 0, drawFramebuffer := 0, readFramebuffer := 0,
    clearColor := ⟨0, 0, 0, 0⟩, calls := [] }

/-- Modelled from the spec: part of the GL model. The colour buffer a framebuffer reads
from and draws into, when it has one. -/
def Context.colorBuffer (g : Context) (fbo : Nat) : Option Texture := g.textures (g.colorAttachment fbo)

/-- Modelled from the spec: the wrapper `glGenTextures(1, &name)` is not under src/.
"Allocates two textures": returns a name never returned before, with no storage yet. -/
def glGenTextures (g : Context) : Nat × Context :=
  let name := g.lastTexture + 1
  (name, { g with lastTexture := name, textures := Function.update g.textures name none,
                  calls := g.calls ++ [.GenTextures name] })

/-- Modelled from the spec: the wrapper `glGenFramebuffers(1, &name)` is not under src/.
"Allocates ... two framebuffers": returns a name never returned before, nothing attached. -/
def glGenFramebuffers (g : Context) : Nat × Context :=
  let name := g.lastFramebuffer + 1
  (name, { g with lastFramebuffer := name,
                  colorAttachment := Function.update g.colorAttachment name 0,
                  calls := g.calls ++ [.GenFramebuffers name] })

/-- Modelled from the spec: the wrapper `glBindFramebuffer(target, name)` is not under
src/. `FRAMEBUFFER` binds both the draw and the read framebuffer. -/
def glBindFramebuffer (target : gl) (name : Nat) (g : Context) : Context :=
  { g with
    drawFramebuffer :=
      if target = .FRAMEBUFFER ∨ target = .DRAW_FRAMEBUFFER then name else g.drawFramebuffer,
    readFramebuffer :=
      if target = .FRAMEBUFFER ∨ target = .READ_FRAMEBUFFER then name else g.readFramebuffer,
    calls := g.calls ++ [.BindFramebuffer target name] }

/-- Modelled from the spec: the wrapper `glBindTexture(target, name)` is not under src/. -/
def glBindTexture (target : gl) (name : Nat) (g : Context) : Context :=
  { g with
    texture2D := if target = .TEXTURE_2D then name else g.texture2D,
    texture2DMultisample :=
      if target = .TEXTURE_2D_MULTISAMPLE then name else g.texture2DMultisample,
    calls := g.calls ++ [.BindTexture target name] }

/-- Modelled from the spec: the wrapper `glTexImage2D` is not under src/. "A standard 2D
RGBA8 texture": for level 0, border 0 and RGBA bytes, gives the bound 2D texture a
`width x height` storage (contents zero, the data pointer of the source being nil); a
size outside `0 .. maxTextureSize` is rejected by GL and leaves the texture as it was.
Other levels and formats are not given a meaning. -/
def glTexImage2D (target : gl) (level : Int) (internalformat : gl) (width height : Int)
    (border : Int) (format type : gl) (g : Context) : Context :=
  { g with
    textures :=
      if target = .TEXTURE_2D ∧ level = 0 ∧ internalformat = .RGBA ∧ border = 0 ∧
          format = .RGBA ∧ type = .UNSIGNED_BYTE ∧ 0 ≤ width ∧ width ≤ g.maxTextureSize ∧
          0 ≤ height ∧ height ≤ g.maxTextureSize then
        Function.update g.textures g.texture2D
          (some ⟨width, height, 0, fun _ _ => ⟨0, 0, 0, 0⟩⟩)
      else g.textures,
    calls := g.calls ++ [.TexImage2D target width height] }

/-- Modelled from the spec: the wrapper `glTexParameteri` is not under src/. Filtering
and wrapping modes do not change any contents. -/
def glTexParameteri (target pname param : gl) (g : Context) : Context :=
  { g with calls := g.calls ++ [.TexParameteri target pname param] }

/-- Modelled from the spec: the wrapper `glFramebufferTexture2D` is not under src/.
"Attached as color attachment 0": attaches `texture` to the framebuffer bound to
`target` (`FRAMEBUFFER` stands for the draw framebuffer). -/
def glFramebufferTexture2D (target attachment textarget : gl) (texture : Nat) (g : Context) :
    Context :=
  { g with
    colorAttachment :=
      if attachment = .COLOR_ATTACHMENT0 ∧
          (target = .FRAMEBUFFER ∨ target = .DRAW_FRAMEBUFFER) then
        Function.update g.colorAttachment g.drawFramebuffer texture
      else if attachment = .COLOR_ATTACHMENT0 ∧ target = .READ_FRAMEBUFFER then
        Function.update g.colorAttachment g.readFramebuffer texture
      else g.colorAttachment,
    calls := g.calls ++ [.FramebufferTexture2D target attachment textarget texture] }

/-- Modelled from the spec: the wrapper `glTexImage2DMultisample` is not under src/.
"A multisampled 2D RGBA texture (same width/height, multisampleCount samples, fixed
sample locations)": gives the bound multisample texture its storage; a size outside
`0 .. maxTextureSize` or a sample count outside `0 .. maxSamples` is rejected by GL and
leaves the texture as it was. -/
def glTexImage2DMultisample (target : gl) (samples : Int) (internalformat : gl)
    (width height : Int) (_fixedsamplelocations : Bool) (g : Context) : Context :=
  { g with
    textures :=
      if target = .TEXTURE_2D_MULTISAMPLE ∧ internalformat = .RGBA ∧
          0 ≤ samples ∧ samples ≤ g.maxSamples ∧
          0 ≤ width ∧ width ≤ g.maxTextureSize ∧ 0 ≤ height ∧ height ≤ g.maxTextureSize then
        Function.update g.textures g.texture2DMultisample
          (some ⟨width, height, samples, fun _ _ => ⟨0, 0, 0, 0⟩⟩)
      else g.textures,
    calls := g.calls ++ [.TexImage2DMultisample target samples width height] }

/-- Modelled from the spec: part of the model of `glClearColor`. The byte stored for a
colour channel given as 0.0 or 1.0. -/
def unorm8 (c : Nat) : Nat := if c = 0 then 0 else 255

/-- Modelled from the spec: the wrapper `glClearColor(r, g, b, a)` is not under src/.
The channels are the literals 0 and 1 of the source. -/
def glClearColor (r g' b a : Nat) (g : Context) : Context :=
  { g with clearColor := ⟨unorm8 r, unorm8 g', unorm8 b, unorm8 a⟩,
           calls := g.calls ++ [.ClearColor r g' b a] }

/-- Modelled from the spec: part of the model of `glClear`. The texture store after
every pixel of texture `name` becomes `c`; unchanged when `name` has no storage. -/
def fillTexture (textures : Nat → Option Texture) (name : Nat) (c : color.RGBA) :
    Nat → Option Texture :=
  match textures name with
  | none => textures
  | some t => Function.update textures name (some { t with texel := fun _ _ => c })

/-- Modelled from the spec: the wrapper `glClear(mask)` is not under src/. "Resets ...
framebuffer color buffers": every pixel of the colour buffer of the draw framebuffer
becomes the clear colour; nothing happens when there is no colour buffer. -/
def glClear (mask : gl) (g : Context) : Context :=
  { g with
    textures :=
      if mask = .COLOR_BUFFER_BIT then
        fillTexture g.textures (g.colorAttachment g.drawFramebuffer) g.clearColor
      else g.textures,
    calls := g.calls ++ [.Clear mask] }

/-- Modelled from the spec: part of the model of `glBlitFramebuffer`. The colours of
`dst` after a 1:1 blit of the rectangle `[0, x1) x [0, y1)` from `src`. -/
def blitTexel (src dst : Texture) (x1 y1 : Int) (x y : Int) : color.RGBA :=
  if x < x1 ∧ y < y1 ∧ src.Has x y ∧ dst.Has x y then src.texel x y else dst.texel x y

/-- Modelled from the spec: part of the model of `glBlitFramebuffer`. The texture store
after a 1:1 blit of the rectangle `[0, x1) x [0, y1)` from texture `src` to texture
`dst`; unchanged when either has no storage. -/
def blitTexture (textures : Nat → Option Texture) (src dst : Nat) (x1 y1 : Int) :
    Nat → Option Texture :=
  match textures src, textures dst with
  | some s, some d =>
    Function.update textures dst (some { d with texel := blitTexel s d x1 y1 })
  | _, _ => textures

/-- Modelled from the spec: the wrapper `glBlitFramebuffer` is not under src/. "A
multisample-resolve blit", "full-surface": for equal source and destination rectangles
`[0, x1) x [0, y1)` (the only form the source issues) every pixel of the rectangle
that lies inside both colour buffers is copied from the read framebuffer to the draw
framebuffer; other pixels, and the source, are left alone. Other rectangles are not
given a meaning. -/
def glBlitFramebuffer (sx0 sy0 sx1 sy1 dx0 dy0 dx1 dy1 : Int) (mask filter : gl)
    (g : Context) : Context :=
  { g with
    textures :=
      if mask = .COLOR_BUFFER_BIT ∧ filter = .LINEAR ∧
          sx0 = 0 ∧ sy0 = 0 ∧ dx0 = 0 ∧ dy0 = 0 ∧ sx1 = dx1 ∧ sy1 = dy1 then
        blitTexture g.textures (g.colorAttachment g.readFramebuffer)
          (g.colorAttachment g.drawFramebuffer) sx1 sy1
      else g.textures,
    calls := g.calls ++ [.BlitFramebuffer sx0 sy0 sx1 sy1 dx0 dy0 dx1 dy1] }

/-- Modelled from the spec: part of the model of `glReadPixels`. The byte at offset `k`
of a read-back buffer after reading the rectangle of origin
`(x, y)` and size `width x height` from `t`: rows are stored bottom row first, four
bytes per pixel; a byte whose pixel is outside the rectangle or outside the texture
keeps its old value. -/
def readByte (t : Texture) (x y width height : Int) (k : Nat) (old : Nat) : Nat :=
  let p : Int := ((k / 4 : Nat) : Int)
  if 0 < width ∧ p / width < height ∧ t.Has (x + p % width) (y + p / width) then
    (t.texel (x + p % width) (y + p / width)).channel (k % 4)
  else old

/-- Modelled from the spec: part of the model of `glReadPixels`. The read-back buffer
after reading the rectangle of origin `(x, y)` and size
`width x height` from the colour buffer `t`; a negative size, a missing colour buffer
or a multisampled one is rejected by GL and leaves the buffer as it was. -/
def readBuffer (t : Option Texture) (x y width height : Int) (pixels : List Nat) : List Nat :=
  match t with
  | none => pixels
  | some t =>
    if 0 ≤ width ∧ 0 ≤ height ∧ t.samples = 0 then
      pixels.mapIdx (fun k old => readByte t x y width height k old)
    else pixels

/-- Modelled from the spec: the wrapper `glReadPixels` is not under src/. "Reads back
raw RGBA8 bytes from the Read framebuffer in GPU row order": fills `pixels` from the
colour buffer of the read framebuffer. The argument `glPtr(pixels)` of the source is
the buffer itself; `glPtr` is not under src/ either and is taken not to fault. -/
def glReadPixels (x y width height : Int) (format type : gl) (pixels : List Nat)
    (g : Context) : List Nat × Context :=
  (if format = .RGBA ∧ type = .UNSIGNED_BYTE then
      readBuffer (g.colorBuffer g.readFramebuffer) x y width height pixels
    else pixels,
   { g with calls := g.calls ++ [.ReadPixels x y width height] })

/-- Modelled from the spec: the wrapper `glDeleteTextures(1, &name)` is not under src/.
"Releases both textures", "safe on an already-destroyed ... surface": the storage of
`name` is dropped and bindings to it revert to 0; name 0 and names without storage
are ignored without error. -/
def glDeleteTextures (name : Nat) (g : Context) : Context :=
  { g with
    textures := if name = 0 then g.textures else Function.update g.textures name none,
    texture2D := if name ≠ 0 ∧ g.texture2D = name then 0 else g.texture2D,
    texture2DMultisample :=
      if name ≠ 0 ∧ g.texture2DMultisample = name then 0 else g.texture2DMultisample,
    calls := g.calls ++ [.DeleteTextures name] }

/-- Modelled from the spec: the wrapper `glDeleteFramebuffers(1, &name)` is not under
src/. "Releases ... both framebuffers": the attachment of `name` is dropped and
bindings to it revert to 0; name 0 is ignored without error. -/
def glDeleteFramebuffers (name : Nat) (g : Context) : Context :=
  { g with
    colorAttachment :=
      if name = 0 then g.colorAttachment else Function.update g.colorAttachment name 0,
    drawFramebuffer := if name ≠ 0 ∧ g.drawFramebuffer = name then 0 else g.drawFramebuffer,
    readFramebuffer := if name ≠ 0 ∧ g.readFramebuffer = name then 0 else g.readFramebuffer,
    calls := g.calls ++ [.DeleteFramebuffers name] }

/-! ## render/msaa.go -/

/-- The anonymous type `struct { FBO, Tex uint32 }` of the fields `Read` and `Write`. -/
structure Target where
  FBO : Nat
  Tex : Nat
deriving DecidableEq, Repr

/-- Type `msaa` (msaa.go:17-26). -/
structure msaa where
  ID : Int
  Read : Target
  Write : Target
  Width : Int
  Height : Int
  Multisamples : Int
deriving DecidableEq, Repr

/-- Method `msaa.Clear` (msaa.go:100-108). -/
def msaa.Clear (m : msaa) (g : Context) : Context :=
  let g := glBindFramebuffer .FRAMEBUFFER m.Read.FBO g
  let g := glClearColor 0 0 0 1 g
  let g := glClear .COLOR_BUFFER_BIT g
  let g := glBindFramebuffer .FRAMEBUFFER m.Write.FBO g
  let g := glClearColor 0 0 0 1 g
  glClear .COLOR_BUFFER_BIT g

/-- Function `newMsaa` (msaa.go:28-98). `glGenTextures(1, &name)` returns the name; the
nil data pointer of `glTexImage2D` is left out. -/
def newMsaa (id w h multisamples : Int) (g : Context) : msaa × Context :=
  let r1 := glGenTextures g
  let r2 := glGenTextures r1.2
  let r3 := glGenFramebuffers r2.2
  let r4 := glGenFramebuffers r3.2
  let m : msaa :=
    { ID := id, Width := w, Height := h, Multisamples := multisamples,
      Read := ⟨r3.1, r1.1⟩, Write := ⟨r4.1, r2.1⟩ }
  let g := r4.2
  let g := glBindFramebuffer .FRAMEBUFFER m.Read.FBO g
  let g := glBindTexture .TEXTURE_2D m.Read.Tex g
  let g := glTexImage2D .TEXTURE_2D 0 .RGBA (wrap32 m.Width) (wrap32 m.Height) 0
    .RGBA .UNSIGNED_BYTE g
  let g := glTexParameteri .TEXTURE_2D .TEXTURE_MAG_FILTER .LINEAR g
  let g := glTexParameteri .TEXTURE_2D .TEXTURE_MIN_FILTER .LINEAR g
  let g := glTexParameteri .TEXTURE_2D .TEXTURE_WRAP_S .REPEAT g
  let g := glTexParameteri .TEXTURE_2D .TEXTURE_WRAP_T .REPEAT g
  let g := glFramebufferTexture2D .FRAMEBUFFER .COLOR_ATTACHMENT0 .TEXTURE_2D m.Read.Tex g
  let g := glBindFramebuffer .FRAMEBUFFER m.Write.FBO g
  let g := glBindTexture .TEXTURE_2D_MULTISAMPLE m.Write.Tex g
  let g := glTexImage2DMultisample .TEXTURE_2D_MULTISAMPLE (wrap32 m.Multisamples) .RGBA
    (wrap32 m.Width) (wrap32 m.Height) false g
  let g := glFramebufferTexture2D .FRAMEBUFFER .COLOR_ATTACHMENT0 .TEXTURE_2D_MULTISAMPLE
    m.Write.Tex g
  (m, m.Clear g)

/-- Method `msaa.Paint` (msaa.go:111-122). -/
def msaa.Paint (m : msaa) (g : Context) : Context :=
  let g := glBindFramebuffer .DRAW_FRAMEBUFFER m.Read.FBO g
  let g := glBindFramebuffer .READ_FRAMEBUFFER m.Write.FBO g
  glBlitFramebuffer 0 0 (wrap32 m.Width) (wrap32 m.Height)
    0 0 (wrap32 m.Width) (wrap32 m.Height) .COLOR_BUFFER_BIT .LINEAR g

/-- Method `msaa.Blit` (msaa.go:126-136). -/
def msaa.Blit (m : msaa) (dest : Nat) (g : Context) : Context :=
  let g := glBindFramebuffer .DRAW_FRAMEBUFFER dest g
  let g := glBindFramebuffer .READ_FRAMEBUFFER m.Read.FBO g
  glBlitFramebuffer 0 0 (wrap32 m.Width) (wrap32 m.Height)
    0 0 (wrap32 m.Width) (wrap32 m.Height) .COLOR_BUFFER_BIT .LINEAR g

/-- The rectangle computed by `msaa.Pixels` (msaa.go:141-157) from the four truncated
products: origin clamped below at 0, size clamped above at the surface size. -/
def msaa.clampRect (m : msaa) (xi yi wi hi : Int) : Int × Int × Int × Int :=
  let xi := if xi < 0 then 0 else xi
  let yi := if yi < 0 then 0 else yi
  let wi := if wi > m.Width then m.Width else wi
  let hi := if hi > m.Height then m.Height else hi
  (xi, yi, wi, hi)

/-- Method `msaa.Pixels` (msaa.go:138-172). -/
def msaa.Pixels {F : Type} (fl : Float32 F) (m : msaa) (x y w h : F) (g : Context) :
    Except Panic (List Nat × Context) :=
  let g := glBindFramebuffer .READ_FRAMEBUFFER m.Read.FBO g
  let xi := fl.toInt (fl.mul x (fl.ofInt m.Width))
  let yi := fl.toInt (fl.mul y (fl.ofInt m.Height))
  let wi := fl.toInt (fl.mul w (fl.ofInt m.Width))
  let hi := fl.toInt (fl.mul h (fl.ofInt m.Height))
  let r := m.clampRect xi yi wi hi
  match make (imul (imul r.2.2.1 r.2.2.2) 4) with
  | .error e => .error e
  | .ok pixels =>
    .ok (glReadPixels (wrap32 r.1) (wrap32 r.2.1) (wrap32 r.2.2.1) (wrap32 r.2.2.2)
      .RGBA .UNSIGNED_BYTE pixels g)

/-- The body of the two loops of `msaa.Image` (msaa.go:189-198) at `(x, y)`. -/
def msaa.Image.body (m : msaa) (pixels : List Nat) (y x : Int) (img : image.RGBA) :
    Except Panic image.RGBA :=
  let i := iadd (imul (imul (isub (isub m.Height y) 1) m.Width) 4) (imul x 4)
  match index pixels (iadd i 0) with
  | .error e => .error e
  | .ok r =>
    match index pixels (iadd i 1) with
    | .error e => .error e
    | .ok gr =>
      match index pixels (iadd i 2) with
      | .error e => .error e
      | .ok b => .ok (img.SetRGBA x y ⟨r, gr, b, 255⟩)

/-- The second half of `msaa.Image` (msaa.go:185-202): the image built from the
read-back buffer `pixels`. -/
def msaa.Image.convert (m : msaa) (pixels : List Nat) : Except Panic image.RGBA :=
  match image.NewRGBA (image.Rect 0 0 m.Width m.Height) with
  | .error e => .error e
  | .ok img =>
    forRange m.Height (fun y img =>
      forRange m.Width (fun x img => msaa.Image.body m pixels y x img) img) img

/-- The first half of `msaa.Image` (msaa.go:176-183): the buffer after read-back. -/
def msaa.Image.readback (m : msaa) (g : Context) : Except Panic (List Nat × Context) :=
  let g := glBindFramebuffer .READ_FRAMEBUFFER m.Read.FBO g
  match make (imul (imul m.Width m.Height) 4) with
  | .error e => .error e
  | .ok pixels =>
    .ok (glReadPixels 0 0 (wrap32 m.Width) (wrap32 m.Height) .RGBA .UNSIGNED_BYTE pixels g)

/-- Method `msaa.Image` (msaa.go:174-203). -/
def msaa.Image (m : msaa) (g : Context) : Except Panic (image.RGBA × Context) :=
  match msaa.Image.readback m g with
  | .error e => .error e
  | .ok r =>
    match msaa.Image.convert m r.1 with
    | .error e => .error e
    | .ok img => .ok (img, r.2)

/-- Method `msaa.Destroy` (msaa.go:205-213); the receiver is a pointer, `none` is nil. -/
def msaa.Destroy (m : Option msaa) (g : Context) : Context :=
  match m with
  | none => g
  | some m =>
    let g := glDeleteTextures m.Read.Tex g
    let g := glDeleteTextures m.Write.Tex g
    let g := glDeleteFramebuffers m.Read.FBO g
    glDeleteFramebuffers m.Write.FBO g

/-! ## render/plan.go -/

/-- Type `Shader` (plan.go:18-20). -/
structure Shader where
  Vert : String
  Frag : String
  Geom : String
  Output : String
deriving DecidableEq, Repr

/-- Type `Attr` (plan.go:33-37); `V` stands for the values held as `interface{}`. -/
structure Attr (V : Type) where
  Value : V
  Size : Int
  Divisor : Int

/-- Type `Pass` (plan.go:22-31); maps are association lists. -/
structure Pass (V : Type) where
  Name : String
  ShaderID : Int
  Layer : Int
  Vertices : Int
  Instances : Int
  Faces : List Nat
  Uniforms : List (String × V)
  Attrs : List (String × Attr V)

/-- Type `Plan` (plan.go:9-16); maps are association lists, `I` stands for `image.Image`. -/
structure Plan (V I : Type) where
  RootLayer : Int
  Shaders : List (Int × Shader)
  Images : List (Int × I)
  Passes : List (Pass V)

/-- The test that `id` is a key of the map `Shaders` (Go: `_, ok := p.Shaders[id]`). -/
def Plan.hasShader {V I : Type} (p : Plan V I) (id : Int) : Bool :=
  (p.Shaders.lookup id).isSome

/-- Modelled from the spec: plan validation is not under src/. A configuration error
reported by it. -/
inductive ConfigError where
  | unknownShader (id : Int)
  | sizeMismatch (pass attr : String)
  | badInstances (pass : String) (instances : Int)
  | badVertices (pass : String) (vertices : Int)
deriving DecidableEq, Repr

/-- Modelled from the spec: plan validation is not under src/ (plan.go holds the type
declarations only). "A plan is valid iff: every Pass's shader id exists in Shaders;
every uniform/attribute value's declared size is consistent with its underlying type;
Instances ≥ 1; Vertices ≥ 0". The errors of one pass. What makes a declared size
consistent with a value is the parameter `consistent`; only `Attr` declares a size,
the uniforms of a `Pass` are bare values. -/
def Pass.validate {V I : Type} (consistent : V → Int → Bool) (p : Plan V I) (ps : Pass V) :
    List ConfigError :=
  (if p.hasShader ps.ShaderID then [] else [.unknownShader ps.ShaderID]) ++
  ((ps.Attrs.filter (fun a => !consistent a.2.Value a.2.Size)).map
    (fun a => .sizeMismatch ps.Name a.1)) ++
  (if 1 ≤ ps.Instances then [] else [.badInstances ps.Name ps.Instances]) ++
  (if 0 ≤ ps.Vertices then [] else [.badVertices ps.Name ps.Vertices])

/-- Modelled from the spec: plan validation is not under src/. "Validation failures are
reported as configuration errors at plan-submission time, before any GPU work is
issued": a function of the plan alone, which returns every error found; the plan is
accepted when there is none. -/
def Plan.validate {V I : Type} (consistent : V → Int → Bool) (p : Plan V I) :
    List ConfigError :=
  p.Passes.flatMap (Pass.validate consistent p)

/-! ## Definitions used by the statements -/

/-- Pairs of consecutive stack entries, each divided by the builder size. -/
def pairUp {F : Type} (fl : Float32 F) (w h : F) : List F → List (XY F)
  | a :: b :: rest => ⟨fl.div a w, fl.div b h⟩ :: pairUp fl w h rest
  | _ => []

/-- Integer-valued `float32` values: exact for the small values used in the examples. -/
def intFloat : Float32 Int := ⟨id, fun a b => a * b, fun a b => a / b, id⟩

/-- A pass that names shader 7. -/
def passSeven : Pass Unit := ⟨"p", 7, 0, 3, 1, [], [], []⟩

/-- A plan whose only pass names shader 7 while `Shaders` has the key 1 only. -/
def planSeven : Plan Unit Unit :=
  { RootLayer := 0, Shaders := [(1, ⟨"", "", "", ""⟩)], Images := [],
    Passes := [passSeven] }

/-- The colour `msaa.Image` is to store at `(x, y)`: the three bytes at offset
`((Height - y - 1) * Width + x) * 4` of the read-back buffer, and alpha 255. -/
def msaa.Image.source (m : msaa) (pixels : List Nat) (x y : Int) : color.RGBA :=
  let i := (((m.Height - y - 1) * m.Width + x) * 4).toNat
  ⟨pixels.getD i 0, pixels.getD (i + 1) 0, pixels.getD (i + 2) 0, 255⟩

/-- A 2 x 2 surface. -/
def surface2 : msaa := ⟨0, ⟨1, 1⟩, ⟨2, 2⟩, 2, 2, 4⟩

/-- A 4 x 4 surface with 4 samples, as `newMsaa(0, 4, 4, 4)` returns it in a fresh context. -/
def surface4 : msaa := ⟨0, ⟨1, 1⟩, ⟨2, 2⟩, 4, 4, 4⟩

/-- A surface value of width `2^62` and height 0. -/
def surfaceWide : msaa := ⟨0, ⟨1, 1⟩, ⟨2, 2⟩, 2 ^ 62, 0, 4⟩

/-- A surface value of size `2^25 x 2^25`. -/
def surfaceLarge : msaa := ⟨0, ⟨1, 1⟩, ⟨2, 2⟩, 2 ^ 25, 2 ^ 25, 4⟩

/-- A surface value of size `2^31 x 2^31`. -/
def surfaceHuge : msaa := ⟨0, ⟨1, 1⟩, ⟨2, 2⟩, 2 ^ 31, 2 ^ 31, 4⟩

/-- The context in which `newMsaa(0, 4, 4, 4)` has just created `surface4`. -/
def context4 : Context := (newMsaa 0 4 4 4 Context.start).2

/-- A colour buffer, if there is one, that is opaque black at every pixel. -/
def Black (t : Option Texture) : Prop :=
  ∀ tex, t = some tex → ∀ x y, tex.texel x y = ⟨0, 0, 0, 255⟩

/-- The two framebuffers of `m` have the two textures of `m` as colour attachments. -/
def Attached (m : msaa) (g : Context) : Prop :=
  g.colorAttachment m.Read.FBO = m.Read.Tex ∧ g.colorAttachment m.Write.FBO = m.Write.Tex

/-- The context of `surface4` after `Clear` and one draw into the Write texture: the
pixel of column 1 in the bottom row is red. -/
def contextRed : Context :=
  { surface4.Clear context4 with
    textures := Function.update (surface4.Clear context4).textures surface4.Write.Tex
      (some ⟨4, 4, 4, fun x y => if x = 1 ∧ y = 0 then ⟨255, 0, 0, 255⟩ else ⟨0, 0, 0, 255⟩⟩) }

/-! ## Properties -/

theorem pairUp_length {F : Type} (fl : Float32 F) (w h : F) :
    ∀ (n : Nat) (l : List F), l.length = 2 * n → (pairUp fl w h l).length = n
  | 0, l, hl => by
    have : l = [] := List.length_eq_zero.mp (by omega)
    subst this; rfl
  | n + 1, [], hl => by simp at hl
  | n + 1, [_], hl => by simp at hl; omega
  | n + 1, a :: b :: rest, hl => by
    have hr : rest.length = 2 * n := by simp at hl; omega
    simp [pairUp, pairUp_length fl w h n rest hr]

theorem pairUp_getElem? {F : Type} (fl : Float32 F) (w h : F) :
    ∀ (k : Nat) (l : List F), 2 * k + 1 < l.length →
      ∃ a b, l[2 * k]? = some a ∧ l[2 * k + 1]? = some b ∧
        (pairUp fl w h l)[k]? = some ⟨fl.div a w, fl.div b h⟩
  | _, [], hl => by simp at hl
  | _, [_], hl => by simp at hl
  | 0, a :: b :: rest, _ => ⟨a, b, by simp [pairUp]⟩
  | k + 1, a :: b :: rest, hl => by
    have hr : 2 * k + 1 < rest.length := by simp at hl; omega
    obtain ⟨a', b', h1, h2, h3⟩ := pairUp_getElem? fl w h k rest hr
    refine ⟨a', b', ?_, ?_, ?_⟩
    · have : 2 * (k + 1) = (2 * k) + 1 + 1 := by ring
      rw [this]; simpa using h1
    · have : 2 * (k + 1) + 1 = (2 * k + 1) + 1 + 1 := by ring
      rw [this]; simpa using h2
    · simpa [pairUp] using h3

theorem popLoop_spec {F P : Type} (fl : Float32 F) (p : builder F P) :
    ∀ (n : Nat) (rest pre : List F) (fuel : Nat) (acc : List (XY F)),
      rest.length ≤ n → p.stack = pre ++ rest → rest.length / 2 + 1 ≤ fuel →
      builder.popLoop fl p fuel pre.length acc =
        if rest.length % 2 = 0 then .ok (acc ++ pairUp fl p.width p.height rest)
        else .error .indexOutOfRange := by
  intro n
  induction n with
  | zero =>
    intro rest pre fuel acc hn hs hf
    have : rest = [] := List.length_eq_zero.mp (by omega)
    subst this
    obtain ⟨f, rfl⟩ : ∃ f, fuel = f + 1 := ⟨fuel - 1, by omega⟩
    simp [builder.popLoop, hs, pairUp]
  | succ n ih =>
    intro rest pre fuel acc hn hs hf
    obtain ⟨f, rfl⟩ : ∃ f, fuel = f + 1 := ⟨fuel - 1, by omega⟩
    match rest, hn, hs, hf with
    | [], _, hs, _ => simp [builder.popLoop, hs, pairUp]
    | [a], _, hs, _ =>
      have e1 : p.stack[pre.length]? = some a := by
        rw [hs, List.getElem?_append_right (le_refl _)]; simp
      have e2 : p.stack[pre.length + 1]? = none := by
        rw [hs]; exact List.getElem?_eq_none (by simp)
      have hlt : pre.length < p.stack.length := by simp [hs]
      rw [builder.popLoop, if_pos hlt, e1, e2]
      simp
    | a :: b :: rest, hn, hs, hf =>
      have hs' : p.stack = (pre ++ [a, b]) ++ rest := by simp [hs]
      have hlen : (pre ++ [a, b]).length = pre.length + 2 := by simp
      have h := ih rest (pre ++ [a, b]) f (acc ++ [⟨fl.div a p.width, fl.div b p.height⟩])
        (by simp at hn; omega) hs' (by simp at hf; omega)
      rw [hlen] at h
      have e1 : p.stack[pre.length]? = some a := by
        rw [hs, List.getElem?_append_right (le_refl _)]; simp
      have e2 : p.stack[pre.length + 1]? = some b := by
        rw [hs, List.getElem?_append_right (by omega)]; simp
      have hlt : pre.length < p.stack.length := by simp [hs]
      rw [builder.popLoop, if_pos hlt, e1, e2]
      simp only [h]
      have : (a :: b :: rest).length % 2 = rest.length % 2 := by simp; omega
      rw [this]
      split <;> simp [pairUp]

/-- C10. `builder.pop` on a stack of even length `2n` returns `n` points in stack order,
the `k`-th being `(stack[2k] / width, stack[2k+1] / height)`, and empties the stack; on
a stack of odd length it panics with an index out of range. -/
theorem builder_pop_spec {F P : Type} (fl : Float32 F) (p : builder F P) :
    (∀ n : Nat, p.stack.length = 2 * n →
      ∃ pts, builder.pop fl p = .ok (pts, { p with stack := [] }) ∧ pts.length = n ∧
        ∀ k, k < n → ∃ a b, p.stack[2 * k]? = some a ∧ p.stack[2 * k + 1]? = some b ∧
          pts[k]? = some ⟨fl.div a p.width, fl.div b p.height⟩) ∧
    (p.stack.length % 2 = 1 → builder.pop fl p = .error .indexOutOfRange) := by
  have key := popLoop_spec fl p p.stack.length p.stack [] (p.stack.length + 1) []
    (le_refl _) (by simp) (by omega)
  simp only [List.length_nil, List.nil_append] at key
  constructor
  · intro n hn
    refine ⟨pairUp fl p.width p.height p.stack, ?_, pairUp_length fl _ _ n _ hn, ?_⟩
    · rw [builder.pop, key, if_pos (by omega)]
    · intro k hk
      exact pairUp_getElem? fl _ _ k _ (by omega)
  · intro hodd
    rw [builder.pop, key, if_neg (by omega)]

/-- C10 at the stacks `[2, 8, 4, 6]` (width 2, height 2) and `[1, 2, 3]`. -/
theorem builder_pop_spec_witness :
    (∃ pts, builder.pop intFloat (⟨2, 2, [2, 8, 4, 6], ()⟩ : builder Int Unit)
        = .ok (pts, ⟨2, 2, [], ()⟩) ∧ pts.length = 2 ∧
        ∀ k, k < 2 → ∃ a b, ([2, 8, 4, 6] : List Int)[2 * k]? = some a ∧
          ([2, 8, 4, 6] : List Int)[2 * k + 1]? = some b ∧
          pts[k]? = some ⟨intFloat.div a 2, intFloat.div b 2⟩) ∧
    builder.pop intFloat (⟨2, 2, [1, 2, 3], ()⟩ : builder Int Unit)
      = .error .indexOutOfRange :=
  ⟨(builder_pop_spec intFloat ⟨2, 2, [2, 8, 4, 6], ()⟩).1 2 (by decide),
   (builder_pop_spec intFloat ⟨2, 2, [1, 2, 3], ()⟩).2 (by decide)⟩


/-- C6. Validation accepts a plan exactly when every pass names a shader of `Shaders`,
every attribute declares a size consistent with its value, `Instances ≥ 1` and
`Vertices ≥ 0`; and a pass whose shader id is not a key of `Shaders` makes validation
report the configuration error naming that id. Validation is a function of the plan
alone: it has no GL context to issue work on. -/
theorem Plan_validate_spec {V I : Type} (consistent : V → Int → Bool) (p : Plan V I) :
    (Plan.validate consistent p = [] ↔
      ∀ ps ∈ p.Passes, p.hasShader ps.ShaderID = true ∧
        (∀ a ∈ ps.Attrs, consistent a.2.Value a.2.Size = true) ∧
        1 ≤ ps.Instances ∧ 0 ≤ ps.Vertices) ∧
    (∀ ps ∈ p.Passes, p.hasShader ps.ShaderID = false →
      ConfigError.unknownShader ps.ShaderID ∈ Plan.validate consistent p) := by
  constructor
  · simp only [Plan.validate, List.flatMap_eq_nil_iff]
    refine forall₂_congr (fun ps _ => ?_)
    simp only [Pass.validate, List.append_eq_nil, List.map_eq_nil_iff,
      List.filter_eq_nil_iff, ite_eq_left_iff, and_assoc]
    constructor
    · rintro ⟨h1, h2, h3, h4⟩
      refine ⟨?_, ?_, ?_, ?_⟩
      · by_contra h; exact absurd (h1 h) (by simp)
      · intro a ha
        have := h2 a ha
        simpa using this
      · by_contra h; exact absurd (h3 h) (by simp)
      · by_contra h; exact absurd (h4 h) (by simp)
    · rintro ⟨h1, h2, h3, h4⟩
      refine ⟨fun h => absurd h1 h, ?_, fun h => absurd h3 h, fun h => absurd h4 h⟩
      intro a ha
      simp [h2 a ha]
  · intro ps hps hno
    simp only [Plan.validate, List.mem_flatMap]
    exact ⟨ps, hps, by simp [Pass.validate, hno]⟩

/-- C6 at the plan whose only pass names shader 7 while `Shaders` has the key 1 only. -/
theorem Plan_validate_spec_witness :
    passSeven ∈ planSeven.Passes ∧ planSeven.hasShader passSeven.ShaderID = false ∧
    ConfigError.unknownShader 7 ∈ Plan.validate (fun (_ : Unit) _ => true) planSeven :=
  ⟨List.mem_singleton_self _, by decide,
   (Plan_validate_spec (fun (_ : Unit) _ => true) planSeven).2
     passSeven (List.mem_singleton_self _) (by decide)⟩


/-! ### Go integers and loops -/

theorem wrap64_eq (a : Int) (h1 : -2 ^ 63 ≤ a) (h2 : a < 2 ^ 63) : wrap64 a = a := by
  unfold wrap64
  omega

theorem make_ok (n : Int) (h : 0 ≤ n) (h1 : n ≤ maxAlloc) :
    make n = .ok (List.replicate n.toNat 0) := by
  simp [make, not_lt.mpr h, not_lt.mpr h1]

theorem index_eq (s : List Nat) (i : Int) (h0 : 0 ≤ i) (h1 : i < s.length) :
    index s i = .ok (s.getD i.toNat 0) := by
  have hlt : i.toNat < s.length := by omega
  simp [index, not_lt.mpr h0, List.getElem?_eq_getElem hlt, List.getD_eq_getElem?_getD]

theorem forRange_inv {σ : Type} (n : Int) (body : Int → σ → Except Panic σ)
    (Inv : Nat → σ → Prop) (s0 : σ) (h0 : Inv 0 s0)
    (hstep : ∀ (k : Nat) (s : σ), (k : Int) < n → Inv k s →
      ∃ s', body k s = .ok s' ∧ Inv (k + 1) s') :
    ∃ s, forRange n body s0 = .ok s ∧ Inv n.toNat s := by
  have key : ∀ j : Nat, j ≤ n.toNat →
      ∃ s, (List.range j).foldlM (fun s (k : Nat) => body (k : Int) s) s0 = .ok s ∧ Inv j s := by
    intro j
    induction j with
    | zero => intro _; exact ⟨s0, rfl, h0⟩
    | succ j ih =>
      intro hj
      obtain ⟨s, hs, hinv⟩ := ih (by omega)
      obtain ⟨s', hb, hinv'⟩ := hstep j s (by omega) hinv
      refine ⟨s', ?_, hinv'⟩
      rw [List.range_succ, List.foldlM_append, hs]
      simp only [List.foldlM_cons, List.foldlM_nil]
      show (Except.ok s >>= fun b => body j b >>= pure) = _
      simp [hb, bind, Except.bind, pure, Except.pure]
  exact key n.toNat (le_refl _)

/-! ### msaa.Image -/

theorem Image_body_ok (m : msaa) (pixels : List Nat) (img : image.RGBA) (x y : Int)
    (hW : 0 ≤ m.Width) (hlen : (pixels.length : Int) = m.Width * m.Height * 4)
    (hint : (pixels.length : Int) < 2 ^ 63) (hH : m.Height < 2 ^ 63)
    (hx0 : 0 ≤ x) (hx1 : x < m.Width) (hy0 : 0 ≤ y) (hy1 : y < m.Height) :
    0 ≤ ((m.Height - y - 1) * m.Width + x) * 4 ∧
    ((m.Height - y - 1) * m.Width + x) * 4 + 3 < pixels.length ∧
    msaa.Image.body m pixels y x img = .ok (img.SetRGBA x y (msaa.Image.source m pixels x y)) := by
  unfold msaa.Image.body msaa.Image.source
  generalize m.Width = W at *
  generalize m.Height = H at *
  have ha0 : 0 ≤ H - y - 1 := by omega
  have ha1 : H - y - 1 ≤ H - 1 := by omega
  have hm0 : 0 ≤ (H - y - 1) * W := mul_nonneg ha0 hW
  have hm1 : (H - y - 1) * W ≤ (H - 1) * W := mul_le_mul_of_nonneg_right ha1 hW
  have hexp : (H - 1) * W = W * H - W := by ring
  have hi0 : 0 ≤ ((H - y - 1) * W + x) * 4 := by omega
  have hi3 : ((H - y - 1) * W + x) * 4 + 3 < pixels.length := by omega
  refine ⟨hi0, hi3, ?_⟩
  have e1 : isub H y = H - y := wrap64_eq _ (by omega) (by omega)
  have e2 : isub (H - y) 1 = H - y - 1 := wrap64_eq _ (by omega) (by omega)
  have e3 : imul (H - y - 1) W = (H - y - 1) * W := wrap64_eq _ (by omega) (by omega)
  have e4 : imul ((H - y - 1) * W) 4 = (H - y - 1) * W * 4 := wrap64_eq _ (by omega) (by omega)
  have e5 : imul x 4 = x * 4 := wrap64_eq _ (by omega) (by omega)
  have e6 : iadd ((H - y - 1) * W * 4) (x * 4) = ((H - y - 1) * W + x) * 4 := by
    have : (H - y - 1) * W * 4 + x * 4 = ((H - y - 1) * W + x) * 4 := by ring
    unfold iadd
    rw [this]
    exact wrap64_eq _ (by omega) (by omega)
  have e7 : ∀ c : Nat, c ≤ 2 →
      index pixels (iadd (((H - y - 1) * W + x) * 4) (c : Int))
        = .ok (pixels.getD ((((H - y - 1) * W + x) * 4).toNat + c) 0) := by
    intro c hc
    have : iadd (((H - y - 1) * W + x) * 4) (c : Int) = ((H - y - 1) * W + x) * 4 + c :=
      wrap64_eq _ (by omega) (by omega)
    rw [this, index_eq _ _ (by omega) (by omega)]
    congr 2
    omega
  have t0 := e7 0 (by omega)
  have t1 := e7 1 (by omega)
  have t2 := e7 2 (by omega)
  simp only [Nat.cast_zero, Nat.cast_one, Nat.cast_ofNat, add_zero] at t0 t1 t2
  rw [e1, e2, e3, e4, e5, e6]
  simp only [t0, t1, t2]

theorem SetRGBA_Rect (img : image.RGBA) (x y : Int) (c : color.RGBA) :
    (img.SetRGBA x y c).Rect = img.Rect := by
  unfold image.RGBA.SetRGBA
  split <;> rfl

theorem SetRGBA_px (img : image.RGBA) (x y : Int) (c : color.RGBA)
    (h : img.Rect.Has x y = true) (x' y' : Int) :
    (img.SetRGBA x y c).px x' y' = if x' = x ∧ y' = y then c else img.px x' y' := by
  unfold image.RGBA.SetRGBA
  rw [if_pos h]

theorem Rect_Has_iff (W H x y : Int) :
    (image.Rectangle.mk 0 0 W H).Has x y = true ↔ 0 ≤ x ∧ x < W ∧ 0 ≤ y ∧ y < H := by
  simp [image.Rectangle.Has, and_assoc]

theorem Image_convert_ok (m : msaa) (pixels : List Nat)
    (hW : 0 ≤ m.Width) (hW62 : m.Width < 2 ^ 62) (hH : 0 ≤ m.Height)
    (hH63 : m.Height < 2 ^ 63)
    (hlen : (pixels.length : Int) = m.Width * m.Height * 4)
    (hmax : (pixels.length : Int) ≤ maxAlloc) :
    ∃ img, msaa.Image.convert m pixels = .ok img ∧
      img.Rect = ⟨0, 0, m.Width, m.Height⟩ ∧
      ∀ x y : Int, 0 ≤ x → x < m.Width → 0 ≤ y → y < m.Height →
        0 ≤ ((m.Height - y - 1) * m.Width + x) * 4 ∧
        ((m.Height - y - 1) * m.Width + x) * 4 + 3 < pixels.length ∧
        img.RGBAAt x y =
          ⟨pixels.getD (((m.Height - y - 1) * m.Width + x) * 4).toNat 0,
           pixels.getD ((((m.Height - y - 1) * m.Width + x) * 4).toNat + 1) 0,
           pixels.getD ((((m.Height - y - 1) * m.Width + x) * 4).toNat + 2) 0, 255⟩ := by
  have hmax' : (pixels.length : Int) ≤ 2 ^ 48 := hmax
  have hint : (pixels.length : Int) < 2 ^ 63 := by omega
  have hHint : ∀ x y : Int, 0 ≤ x → x < m.Width → 0 ≤ y → y < m.Height → m.Height < 2 ^ 63 :=
    fun _ _ _ _ _ _ => hH63
  have hrect : image.Rect 0 0 m.Width m.Height = ⟨0, 0, m.Width, m.Height⟩ := by
    simp [image.Rect, not_lt.mpr hW, not_lt.mpr hH]
  have hnew : image.NewRGBA ⟨0, 0, m.Width, m.Height⟩
      = .ok ⟨⟨0, 0, m.Width, m.Height⟩, fun _ _ => ⟨0, 0, 0, 0⟩⟩ := by
    have h0 : 0 ≤ m.Width * m.Height := mul_nonneg hW hH
    have hx : isub m.Width 0 = m.Width := by
      unfold isub; rw [sub_zero]; exact wrap64_eq _ (by omega) (by omega)
    have hy : isub m.Height 0 = m.Height := by
      unfold isub; rw [sub_zero]; exact wrap64_eq _ (by omega) (by omega)
    have he : 4 * m.Width * m.Height = m.Width * m.Height * 4 := by ring
    have hmul : image.mul3NonNeg 4 m.Width m.Height = m.Width * m.Height * 4 := by
      unfold image.mul3NonNeg
      rw [if_neg (by omega), if_neg (by omega), if_neg (by omega), if_neg (by omega), he]
    unfold image.NewRGBA
    simp only [image.Rectangle.Dx, image.Rectangle.Dy, hx, hy, hmul]
    rw [if_neg (by omega), make_ok _ (by omega) (by rw [← hlen]; exact hmax)]
  obtain ⟨img, himg, hR, hpx⟩ := forRange_inv m.Height
    (fun y img => forRange m.Width (fun x img => msaa.Image.body m pixels y x img) img)
    (fun k img => img.Rect = ⟨0, 0, m.Width, m.Height⟩ ∧
      ∀ x y : Int, 0 ≤ x → x < m.Width → 0 ≤ y → y < (k : Int) →
        img.px x y = msaa.Image.source m pixels x y)
    ⟨⟨0, 0, m.Width, m.Height⟩, fun _ _ => ⟨0, 0, 0, 0⟩⟩
    ⟨rfl, fun x y _ _ hy0 hy1 => by simp at hy1; omega⟩
    (by
      intro k img hk ⟨hR, hdone⟩
      obtain ⟨img', himg', hR', hrows, hrow⟩ := forRange_inv m.Width
        (fun x img => msaa.Image.body m pixels (k : Int) x img)
        (fun j img' => img'.Rect = ⟨0, 0, m.Width, m.Height⟩ ∧
          (∀ x y : Int, 0 ≤ x → x < m.Width → 0 ≤ y → y < (k : Int) →
            img'.px x y = msaa.Image.source m pixels x y) ∧
          (∀ x : Int, 0 ≤ x → x < (j : Int) →
            img'.px x k = msaa.Image.source m pixels x k))
        img ⟨hR, hdone, fun x hx0 hx1 => by simp at hx1; omega⟩
        (by
          intro j img' hj ⟨hR', hrows, hrow⟩
          have hb := (Image_body_ok m pixels img' j k hW hlen hint
            (hHint j k (by omega) hj (by omega) hk) (by omega) hj (by omega) hk).2.2
          have hhas : img'.Rect.Has j k = true := by
            rw [hR', Rect_Has_iff]; omega
          refine ⟨_, hb, ?_, ?_, ?_⟩
          · rw [SetRGBA_Rect, hR']
          · intro x y hx0 hx1 hy0 hy1
            rw [SetRGBA_px _ _ _ _ hhas, if_neg (by omega)]
            exact hrows x y hx0 hx1 hy0 hy1
          · intro x hx0 hx1
            rw [SetRGBA_px _ _ _ _ hhas]
            by_cases hxj : x = (j : Int)
            · rw [if_pos ⟨hxj, rfl⟩, hxj]
            · rw [if_neg (fun h => hxj h.1)]
              exact hrow x hx0 (by push_cast at hx1; omega))
      refine ⟨img', himg', hR', ?_⟩
      intro x y hx0 hx1 hy0 hy1
      by_cases hyk : y = (k : Int)
      · rw [hyk]
        exact hrow x hx0 (by omega)
      · exact hrows x y hx0 hx1 hy0 (by push_cast at hy1; omega))
  refine ⟨img, ?_, hR, ?_⟩
  · unfold msaa.Image.convert
    rw [hrect, hnew]
    exact himg
  · intro x y hx0 hx1 hy0 hy1
    have hb := Image_body_ok m pixels img x y hW hlen hint
      (hHint x y hx0 hx1 hy0 hy1) hx0 hx1 hy0 hy1
    refine ⟨hb.1, hb.2.1, ?_⟩
    have hhas : img.Rect.Has x y = true := by
      rw [hR, Rect_Has_iff]; omega
    rw [image.RGBA.RGBAAt, if_pos hhas, hpx x y hx0 hx1 hy0 (by omega)]
    rfl

/-- C1, amended. For a surface of width `0 ≤ W < 2^62` and height `H ≥ 0` (a Go `int`)
and every read-back buffer `pixels` of length `W * H * 4`, a length `make` accepts (at
most `maxAlloc`), the conversion of `msaa.Image` succeeds without panic, and
`msaa.Image` returns its result whenever `pixels` is what the read-back produced: an
image of bounds `W x H` whose pixel `(x, y)` has R, G, B equal to the bytes at `i`,
`i + 1`, `i + 2` for `i = ((H - y - 1) * W + x) * 4`, and A = 255 whatever the byte at
`i + 3`; `i ≥ 0` and `i + 3` is inside the buffer. -/
theorem msaa_Image_spec (m : msaa) (pixels : List Nat)
    (hW : 0 ≤ m.Width) (hW62 : m.Width < 2 ^ 62) (hH : 0 ≤ m.Height)
    (hH63 : m.Height < 2 ^ 63)
    (hlen : (pixels.length : Int) = m.Width * m.Height * 4)
    (hmax : (pixels.length : Int) ≤ maxAlloc) :
    ∃ img, msaa.Image.convert m pixels = .ok img ∧
      (∀ g g', msaa.Image.readback m g = .ok (pixels, g') →
        msaa.Image m g = .ok (img, g')) ∧
      img.Rect = ⟨0, 0, m.Width, m.Height⟩ ∧
      ∀ x y : Int, 0 ≤ x → x < m.Width → 0 ≤ y → y < m.Height →
        0 ≤ ((m.Height - y - 1) * m.Width + x) * 4 ∧
        ((m.Height - y - 1) * m.Width + x) * 4 + 3 < pixels.length ∧
        img.RGBAAt x y =
          ⟨pixels.getD (((m.Height - y - 1) * m.Width + x) * 4).toNat 0,
           pixels.getD ((((m.Height - y - 1) * m.Width + x) * 4).toNat + 1) 0,
           pixels.getD ((((m.Height - y - 1) * m.Width + x) * 4).toNat + 2) 0, 255⟩ := by
  obtain ⟨img, hcv, hR, hpx⟩ := Image_convert_ok m pixels hW hW62 hH hH63 hlen hmax
  refine ⟨img, hcv, ?_, hR, hpx⟩
  intro g g' hrb
  unfold msaa.Image
  rw [hrb]
  simp only [hcv]

/-- C1, amended, at a 2 x 2 surface and the buffer `0, 1, ..., 15`. -/
theorem msaa_Image_spec_witness :
    ∃ img, msaa.Image.convert surface2 (List.range 16) = .ok img ∧
      (∀ g g', msaa.Image.readback surface2 g = .ok (List.range 16, g') →
        msaa.Image surface2 g = .ok (img, g')) ∧
      img.Rect = ⟨0, 0, surface2.Width, surface2.Height⟩ ∧
      ∀ x y : Int, 0 ≤ x → x < surface2.Width → 0 ≤ y → y < surface2.Height →
        0 ≤ ((surface2.Height - y - 1) * surface2.Width + x) * 4 ∧
        ((surface2.Height - y - 1) * surface2.Width + x) * 4 + 3 < (List.range 16).length ∧
        img.RGBAAt x y =
          ⟨(List.range 16).getD (((surface2.Height - y - 1) * surface2.Width + x) * 4).toNat 0,
           (List.range 16).getD
             ((((surface2.Height - y - 1) * surface2.Width + x) * 4).toNat + 1) 0,
           (List.range 16).getD
             ((((surface2.Height - y - 1) * surface2.Width + x) * 4).toNat + 2) 0, 255⟩ :=
  msaa_Image_spec surface2 (List.range 16) (by decide) (by decide) (by decide) (by decide)
    (by decide) (by decide)

/-- C1 as stated fails at the surface of width `2^62` and height 0 with the empty
read-back buffer (its length is `2^62 * 0 * 4`): `image.NewRGBA` panics because
`4 * 2^62` overflows, in the conversion and so in `msaa.Image` in a fresh context. -/
theorem msaa_Image_wide_empty_panics :
    (0 : Int) ≤ surfaceWide.Width ∧ (0 : Int) ≤ surfaceWide.Height ∧
    (([] : List Nat).length : Int) = surfaceWide.Width * surfaceWide.Height * 4 ∧
    msaa.Image.convert surfaceWide [] = .error .imageTooLarge ∧
    msaa.Image surfaceWide Context.start = .error .imageTooLarge := by
  have hc : ∀ pixels, msaa.Image.convert surfaceWide pixels = .error .imageTooLarge := by
    intro pixels
    have hmul : image.mul3NonNeg 4
        (image.Rect 0 0 surfaceWide.Width surfaceWide.Height).Dx
        (image.Rect 0 0 surfaceWide.Width surfaceWide.Height).Dy = -1 := by decide
    have hn : image.NewRGBA (image.Rect 0 0 surfaceWide.Width surfaceWide.Height)
        = .error .imageTooLarge := by
      unfold image.NewRGBA
      rw [hmul, if_pos (by decide)]
    unfold msaa.Image.convert
    simp only [hn]
  have hm : make (imul (imul surfaceWide.Width surfaceWide.Height) 4) = .ok [] := by rfl
  refine ⟨by decide, by decide, by decide, hc [], ?_⟩
  unfold msaa.Image msaa.Image.readback
  simp only [hm, hc]

/-! ### msaa.Pixels -/

theorem readBuffer_length (t : Option Texture) (x y w h : Int) (pixels : List Nat) :
    (readBuffer t x y w h pixels).length = pixels.length := by
  unfold readBuffer
  split
  · rfl
  · split
    · simp
    · rfl

theorem glReadPixels_length (x y w h : Int) (f t : gl) (pixels : List Nat) (g : Context) :
    (glReadPixels x y w h f t pixels g).1.length = pixels.length := by
  unfold glReadPixels
  simp only
  split
  · exact readBuffer_length _ _ _ _ _ _
  · rfl

theorem glReadPixels_calls (x y w h : Int) (f t : gl) (pixels : List Nat) (g : Context) :
    (glReadPixels x y w h f t pixels g).2.calls = g.calls ++ [.ReadPixels x y w h] := rfl

theorem Pixels_ok {F : Type} (fl : Float32 F) (m : msaa) (x y w h : F) (g : Context)
    (r : Int × Int × Int × Int) (n : Int)
    (hr : m.clampRect (fl.toInt (fl.mul x (fl.ofInt m.Width)))
        (fl.toInt (fl.mul y (fl.ofInt m.Height))) (fl.toInt (fl.mul w (fl.ofInt m.Width)))
        (fl.toInt (fl.mul h (fl.ofInt m.Height))) = r)
    (h0 : 0 ≤ n) (h1 : n ≤ maxAlloc) (hn : imul (imul r.2.2.1 r.2.2.2) 4 = n) :
    ∃ buf g', msaa.Pixels fl m x y w h g = .ok (buf, g') ∧ (buf.length : Int) = n ∧
      g'.calls = g.calls ++ [.BindFramebuffer .READ_FRAMEBUFFER m.Read.FBO,
        .ReadPixels (wrap32 r.1) (wrap32 r.2.1) (wrap32 r.2.2.1) (wrap32 r.2.2.2)] := by
  have hl := glReadPixels_length (wrap32 r.1) (wrap32 r.2.1) (wrap32 r.2.2.1) (wrap32 r.2.2.2)
    .RGBA .UNSIGNED_BYTE (List.replicate n.toNat 0)
    (glBindFramebuffer .READ_FRAMEBUFFER m.Read.FBO g)
  have hc := glReadPixels_calls (wrap32 r.1) (wrap32 r.2.1) (wrap32 r.2.2.1) (wrap32 r.2.2.2)
    .RGBA .UNSIGNED_BYTE (List.replicate n.toNat 0)
    (glBindFramebuffer .READ_FRAMEBUFFER m.Read.FBO g)
  unfold msaa.Pixels
  simp only [hr, hn, make_ok n h0 h1]
  generalize glReadPixels (wrap32 r.1) (wrap32 r.2.1) (wrap32 r.2.2.1) (wrap32 r.2.2.2)
    .RGBA .UNSIGNED_BYTE (List.replicate n.toNat 0)
    (glBindFramebuffer .READ_FRAMEBUFFER m.Read.FBO g) = res at hl hc ⊢
  obtain ⟨buf, g'⟩ := res
  refine ⟨buf, g', rfl, ?_, ?_⟩
  · simp only at hl
    rw [hl]; simp [h0]
  · simp only at hc
    rw [hc]; simp [glBindFramebuffer]

theorem clampRect_eq (m : msaa) (xi yi wi hi : Int) :
    m.clampRect xi yi wi hi = (max xi 0, max yi 0, min wi m.Width, min hi m.Height) := by
  unfold msaa.clampRect
  simp only [Prod.mk.injEq]
  refine ⟨?_, ?_, ?_, ?_⟩ <;> split <;> omega

theorem Pixels_panic {F : Type} (fl : Float32 F) (m : msaa) (x y w h : F) (g : Context)
    (r : Int × Int × Int × Int) (n : Int) (e : Panic)
    (hr : m.clampRect (fl.toInt (fl.mul x (fl.ofInt m.Width)))
        (fl.toInt (fl.mul y (fl.ofInt m.Height))) (fl.toInt (fl.mul w (fl.ofInt m.Width)))
        (fl.toInt (fl.mul h (fl.ofInt m.Height))) = r)
    (hn : imul (imul r.2.2.1 r.2.2.2) 4 = n) (he : make n = .error e) :
    msaa.Pixels fl m x y w h g = .error e := by
  unfold msaa.Pixels
  simp only [hr, hn, he]

/-- C2, amended. With `xi, yi, wi, hi` the integer truncations of `x*W, y*H, w*W, h*H`:
when `min(wi, W) * min(hi, H) ≥ 0` and `4 * min(wi, W) * min(hi, H)` is a length `make`
accepts (at most `maxAlloc = 2^48`), `msaa.Pixels` returns a buffer of length exactly
`4 * min(wi, W) * min(hi, H)` after binding the Read framebuffer and asking
`glReadPixels` for the rectangle of origin `(max(xi, 0), max(yi, 0))` and size
`(min(wi, W), min(hi, H))`, each converted to `int32`. -/
theorem msaa_Pixels_clamped_length {F : Type} (fl : Float32 F) (m : msaa) (x y w h : F)
    (g : Context)
    (hprod : 0 ≤ min (fl.toInt (fl.mul w (fl.ofInt m.Width))) m.Width *
      min (fl.toInt (fl.mul h (fl.ofInt m.Height))) m.Height)
    (hfit : 4 * min (fl.toInt (fl.mul w (fl.ofInt m.Width))) m.Width *
      min (fl.toInt (fl.mul h (fl.ofInt m.Height))) m.Height ≤ maxAlloc) :
    ∃ buf g', msaa.Pixels fl m x y w h g = .ok (buf, g') ∧
      (buf.length : Int) = 4 * min (fl.toInt (fl.mul w (fl.ofInt m.Width))) m.Width *
        min (fl.toInt (fl.mul h (fl.ofInt m.Height))) m.Height ∧
      g'.calls = g.calls ++ [.BindFramebuffer .READ_FRAMEBUFFER m.Read.FBO,
        .ReadPixels (wrap32 (max (fl.toInt (fl.mul x (fl.ofInt m.Width))) 0))
          (wrap32 (max (fl.toInt (fl.mul y (fl.ofInt m.Height))) 0))
          (wrap32 (min (fl.toInt (fl.mul w (fl.ofInt m.Width))) m.Width))
          (wrap32 (min (fl.toInt (fl.mul h (fl.ofInt m.Height))) m.Height))] := by
  have key : ∀ a b : Int, 0 ≤ a * b → 4 * a * b ≤ maxAlloc →
      0 ≤ 4 * a * b ∧ imul (imul a b) 4 = 4 * a * b := by
    intro a b hprod hfit
    have hfit' : 4 * a * b ≤ 2 ^ 48 := hfit
    have hab : 4 * a * b = 4 * (a * b) := by ring
    have h1 : imul a b = a * b := wrap64_eq _ (by omega) (by omega)
    have h2 : imul (a * b) 4 = 4 * a * b := by
      have : a * b * 4 = 4 * a * b := by ring
      unfold imul
      rw [this]
      exact wrap64_eq _ (by omega) (by omega)
    exact ⟨by omega, by rw [h1, h2]⟩
  obtain ⟨k0, k1⟩ := key _ _ hprod hfit
  exact Pixels_ok fl m x y w h g _ _ (clampRect_eq m _ _ _ _) k0 hfit k1

/-- C2, amended, at `Pixels(0, 0, 1, 1)` on the 4 x 4 surface: a buffer of
`4 * 4 * 4` bytes. -/
theorem msaa_Pixels_clamped_length_witness :
    ∃ buf g', msaa.Pixels intFloat surface4 0 0 1 1 context4 = .ok (buf, g') ∧
      (buf.length : Int) = 4 * min (intFloat.toInt (intFloat.mul 1 (intFloat.ofInt 4))) 4 *
        min (intFloat.toInt (intFloat.mul 1 (intFloat.ofInt 4))) 4 ∧
      g'.calls = context4.calls ++ [.BindFramebuffer .READ_FRAMEBUFFER surface4.Read.FBO,
        .ReadPixels (wrap32 (max (intFloat.toInt (intFloat.mul 0 (intFloat.ofInt 4))) 0))
          (wrap32 (max (intFloat.toInt (intFloat.mul 0 (intFloat.ofInt 4))) 0))
          (wrap32 (min (intFloat.toInt (intFloat.mul 1 (intFloat.ofInt 4))) 4))
          (wrap32 (min (intFloat.toInt (intFloat.mul 1 (intFloat.ofInt 4))) 4))] :=
  msaa_Pixels_clamped_length intFloat surface4 0 0 1 1 context4 (by decide) (by decide)

/-- C2 as stated fails at `Pixels(0, 0, -1, 1)` on the 4 x 4 surface: the truncations
are `wi = -4`, `hi = 4`, the length passed to `make` is `-64`, and the call panics
instead of returning a buffer of length `4 * min(-4, 4) * min(4, 4)`. It fails at
`Pixels(0, 0, 1, 1)` on a surface of size `2^25 x 2^25`: the length `2^52` exceeds
`maxAlloc` and `make` panics. It fails at `Pixels(0, 0, 1, 1)` on a surface of size
`2^31 x 2^31`: the length `2^31 * 2^31 * 4` wraps to 0 and the buffer returned is
empty. -/
theorem msaa_Pixels_length_fails :
    msaa.Pixels intFloat surface4 0 0 (-1) 1 context4 = .error .makeLenOutOfRange ∧
    (¬ ∃ buf g', msaa.Pixels intFloat surface4 0 0 (-1) 1 context4 = .ok (buf, g') ∧
      (buf.length : Int) = 4 * min (-4) 4 * min 4 4) ∧
    msaa.Pixels intFloat surfaceLarge 0 0 1 1 context4 = .error .makeLenOutOfRange ∧
    ∃ buf g', msaa.Pixels intFloat surfaceHuge 0 0 1 1 context4 = .ok (buf, g') ∧
      (buf.length : Int) = 0 ∧
      (buf.length : Int) ≠ 4 * min (2 ^ 31) (2 ^ 31) * min (2 ^ 31) (2 ^ 31) := by
  have h : msaa.Pixels intFloat surface4 0 0 (-1) 1 context4 = .error .makeLenOutOfRange :=
    Pixels_panic intFloat surface4 0 0 (-1) 1 context4 (0, 0, -4, 4) (-64) _
      (by decide) (by decide) (by rfl)
  refine ⟨h, ?_, ?_, ?_⟩
  · rintro ⟨buf, g', h1, _⟩
    rw [h] at h1
    cases h1
  · exact Pixels_panic intFloat surfaceLarge 0 0 1 1 context4 (0, 0, 2 ^ 25, 2 ^ 25)
      (2 ^ 52) _ (by decide) (by decide) (by rfl)
  · obtain ⟨buf, g', h1, h2, _⟩ :=
      Pixels_ok intFloat surfaceHuge 0 0 1 1 context4 (0, 0, 2 ^ 31, 2 ^ 31) 0
        (by decide) (by decide) (by decide) (by decide)
    refine ⟨buf, g', h1, h2, ?_⟩
    rw [h2]
    decide

/-- C3 fails on the code: `Pixels(0, 0, 1, -1)` on the 4 x 4 surface panics in `make`
(length `4 * 4 * -4`), and for the truncations `xi = 2, wi = 4` of `Pixels(0.5, 0, 1, 1)`
the rectangle keeps origin 2 and width 4, which ends at column 6 of a surface of
width 4. -/
theorem msaa_Pixels_negative_height_panics :
    msaa.Pixels intFloat surface4 0 0 1 (-1) context4 = .error .makeLenOutOfRange ∧
    surface4.clampRect 2 0 4 4 = (2, 0, 4, 4) := by
  constructor
  · unfold msaa.Pixels
    have : make (imul (imul (surface4.clampRect (intFloat.toInt (intFloat.mul 0
        (intFloat.ofInt surface4.Width))) (intFloat.toInt (intFloat.mul 0
        (intFloat.ofInt surface4.Height))) (intFloat.toInt (intFloat.mul 1
        (intFloat.ofInt surface4.Width))) (intFloat.toInt (intFloat.mul (-1)
        (intFloat.ofInt surface4.Height)))).2.2.1 (surface4.clampRect
        (intFloat.toInt (intFloat.mul 0 (intFloat.ofInt surface4.Width)))
        (intFloat.toInt (intFloat.mul 0 (intFloat.ofInt surface4.Height)))
        (intFloat.toInt (intFloat.mul 1 (intFloat.ofInt surface4.Width)))
        (intFloat.toInt (intFloat.mul (-1) (intFloat.ofInt surface4.Height)))).2.2.2) 4)
        = .error .makeLenOutOfRange := by rfl
    simp only [this]
  · rfl

/-- C4 fails on the code: `Pixels(1, 0, 1, 1)` on the 4 x 4 surface asks for a rectangle
that starts at column 4, outside the surface, and still returns 64 bytes after
requesting the rectangle of origin `(4, 0)` and size `4 x 4`. -/
theorem msaa_Pixels_missing_rect_nonempty :
    ∃ buf g', msaa.Pixels intFloat surface4 1 0 1 1 context4 = .ok (buf, g') ∧
      buf.length = 64 ∧
      g'.calls = context4.calls ++
        [.BindFramebuffer .READ_FRAMEBUFFER 1, .ReadPixels 4 0 4 4] := by
  obtain ⟨buf, g', h1, h2, h3⟩ :=
    Pixels_ok intFloat surface4 1 0 1 1 context4 (4, 0, 4, 4) 64 rfl (by decide) (by decide)
      (by decide)
  refine ⟨buf, g', h1, by exact_mod_cast h2, ?_⟩
  rw [h3]
  have e4 : wrap32 4 = 4 := by decide
  have e0 : wrap32 0 = 0 := by decide
  simp only [e4, e0]
  rfl

/-! ### newMsaa -/

/-- C5, amended. `newMsaa` validates nothing: for every id, width, height and sample
count, in every context, it returns a surface that records these arguments together
with two fresh texture names and two fresh framebuffer names, and the first four GL
calls it issues generate these names. -/
theorem newMsaa_total (id w h n : Int) (g : Context) :
    (newMsaa id w h n g).1 =
      { ID := id, Width := w, Height := h, Multisamples := n,
        Read := ⟨g.lastFramebuffer + 1, g.lastTexture + 1⟩,
        Write := ⟨g.lastFramebuffer + 2, g.lastTexture + 2⟩ } ∧
    ((newMsaa id w h n g).2.calls.drop g.calls.length).take 4 =
      [.GenTextures (g.lastTexture + 1), .GenTextures (g.lastTexture + 2),
       .GenFramebuffers (g.lastFramebuffer + 1), .GenFramebuffers (g.lastFramebuffer + 2)] := by
  constructor
  · rfl
  · simp [newMsaa, msaa.Clear, glClear, glClearColor, glBindFramebuffer, glBindTexture,
      glTexImage2D, glTexParameteri, glFramebufferTexture2D, glTexImage2DMultisample,
      glGenTextures, glGenFramebuffers]

/-- C5 as stated fails: `newMsaa(0, 0, 0, 4)` (width and height 0) and
`newMsaa(0, 4, 4, 64)` (64 samples on a device whose maximum is 8) both return a
surface, after generating textures 1, 2 and framebuffers 1, 2. -/
theorem newMsaa_accepts_invalid :
    (newMsaa 0 0 0 4 Context.start).1 = ⟨0, ⟨1, 1⟩, ⟨2, 2⟩, 0, 0, 4⟩ ∧
    (newMsaa 0 0 0 4 Context.start).2.calls.take 4 =
      [.GenTextures 1, .GenTextures 2, .GenFramebuffers 1, .GenFramebuffers 2] ∧
    Context.start.maxSamples = 8 ∧
    (newMsaa 0 4 4 64 Context.start).1 = ⟨0, ⟨1, 1⟩, ⟨2, 2⟩, 4, 4, 64⟩ ∧
    (newMsaa 0 4 4 64 Context.start).2.calls.take 4 =
      [.GenTextures 1, .GenTextures 2, .GenFramebuffers 1, .GenFramebuffers 2] := by
  refine ⟨rfl, ?_, rfl, rfl, ?_⟩ <;> decide

/-! ### msaa.Destroy -/

/-- C9. `Destroy` on a nil surface leaves the context as it is, no call issued. On a
surface it issues exactly the four release calls for `Read.Tex`, `Write.Tex`, `Read.FBO`
and `Write.FBO`: these textures lose their storage, these framebuffers their
attachment, and no other texture or framebuffer is touched. A second `Destroy` issues
the same four calls and leaves every resource and binding as the first call left
them. -/
theorem msaa_Destroy_spec (m : msaa) (g : Context) :
    msaa.Destroy none g = g ∧
    (msaa.Destroy (some m) g).calls = g.calls ++
      [.DeleteTextures m.Read.Tex, .DeleteTextures m.Write.Tex,
       .DeleteFramebuffers m.Read.FBO, .DeleteFramebuffers m.Write.FBO] ∧
    (∀ n, (msaa.Destroy (some m) g).textures n =
      if n ≠ 0 ∧ (n = m.Read.Tex ∨ n = m.Write.Tex) then none else g.textures n) ∧
    (∀ f, (msaa.Destroy (some m) g).colorAttachment f =
      if f ≠ 0 ∧ (f = m.Read.FBO ∨ f = m.Write.FBO) then 0 else g.colorAttachment f) ∧
    msaa.Destroy (some m) (msaa.Destroy (some m) g) =
      { msaa.Destroy (some m) g with
        calls := (msaa.Destroy (some m) g).calls ++
          [.DeleteTextures m.Read.Tex, .DeleteTextures m.Write.Tex,
           .DeleteFramebuffers m.Read.FBO, .DeleteFramebuffers m.Write.FBO] } := by
  refine ⟨rfl, ?_, ?_, ?_, ?_⟩
  · simp [msaa.Destroy, glDeleteTextures, glDeleteFramebuffers]
  · intro n
    simp only [msaa.Destroy, glDeleteTextures, glDeleteFramebuffers]
    by_cases h1 : m.Read.Tex = 0 <;> by_cases h2 : m.Write.Tex = 0 <;>
      by_cases h3 : n = m.Read.Tex <;> by_cases h4 : n = m.Write.Tex <;>
      simp_all [Function.update]
  · intro f
    simp only [msaa.Destroy, glDeleteTextures, glDeleteFramebuffers]
    by_cases h1 : m.Read.FBO = 0 <;> by_cases h2 : m.Write.FBO = 0 <;>
      by_cases h3 : f = m.Read.FBO <;> by_cases h4 : f = m.Write.FBO <;>
      simp_all [Function.update]
  · simp only [msaa.Destroy, glDeleteTextures, glDeleteFramebuffers]
    congr 1
    · funext n
      by_cases h1 : m.Read.Tex = 0 <;> by_cases h2 : m.Write.Tex = 0 <;>
        by_cases h3 : n = m.Read.Tex <;> by_cases h4 : n = m.Write.Tex <;>
        simp_all [Function.update]
    · funext f
      by_cases h1 : m.Read.FBO = 0 <;> by_cases h2 : m.Write.FBO = 0 <;>
        by_cases h3 : f = m.Read.FBO <;> by_cases h4 : f = m.Write.FBO <;>
        simp_all [Function.update]
    · split_ifs <;> simp_all
    · split_ifs <;> simp_all
    · split_ifs <;> simp_all
    · split_ifs <;> simp_all
    · simp

/-! ### msaa.Paint -/

theorem blitTexel_self (t : Texture) (x1 y1 : Int) : blitTexel t t x1 y1 = t.texel := by
  funext x y
  unfold blitTexel
  split <;> rfl

theorem blitTexel_twice (s d : Texture) (x1 y1 : Int) :
    blitTexel s { d with texel := blitTexel s d x1 y1 } x1 y1 = blitTexel s d x1 y1 := by
  funext x y
  unfold blitTexel Texture.Has
  simp only
  split <;> rfl

theorem blitTexture_src (T : Nat → Option Texture) (s d : Nat) (x1 y1 : Int) :
    blitTexture T s d x1 y1 s = T s := by
  cases hs : T s with
  | none => simp [blitTexture, hs]
  | some sT =>
    cases hd : T d with
    | none => simp [blitTexture, hs, hd]
    | some dT =>
      by_cases h : s = d
      · subst h
        have : sT = dT := by rw [hs] at hd; exact Option.some.inj hd
        subst this
        simp [blitTexture, blitTexel_self, hs]
      · simp [blitTexture, hs, hd, Function.update, h]

theorem blitTexture_dst (T : Nat → Option Texture) (s d : Nat) (x1 y1 : Int)
    (sT dT : Texture) (hs : T s = some sT) (hd : T d = some dT) :
    blitTexture T s d x1 y1 d = some { dT with texel := blitTexel sT dT x1 y1 } := by
  unfold blitTexture
  simp [hs, hd]

theorem blitTexture_twice (T : Nat → Option Texture) (s d : Nat) (x1 y1 : Int) :
    blitTexture (blitTexture T s d x1 y1) s d x1 y1 d = blitTexture T s d x1 y1 d := by
  cases hs : T s with
  | none => simp [blitTexture, hs]
  | some sT =>
    cases hd : T d with
    | none => simp [blitTexture, hs, hd]
    | some dT =>
      have h1 := blitTexture_src T s d x1 y1
      have h2 := blitTexture_dst T s d x1 y1 sT dT hs hd
      rw [hs] at h1
      rw [blitTexture_dst _ s d x1 y1 sT _ h1 h2, h2, blitTexel_twice]

/-- C8. With the contents of the Read and Write framebuffers held in the context:
`msaa.Paint` leaves the contents of the Write framebuffer unchanged, and a second
`Paint`, with no draw in between, leaves the contents of the Read framebuffer as the
first `Paint` left them. -/
theorem msaa_Paint_idempotent (m : msaa) (g : Context) :
    (m.Paint g).colorBuffer m.Write.FBO = g.colorBuffer m.Write.FBO ∧
    (m.Paint (m.Paint g)).colorBuffer m.Read.FBO = (m.Paint g).colorBuffer m.Read.FBO := by
  constructor
  · simp [msaa.Paint, glBlitFramebuffer, glBindFramebuffer, Context.colorBuffer,
      blitTexture_src]
  · simp [msaa.Paint, glBlitFramebuffer, glBindFramebuffer, Context.colorBuffer,
      blitTexture_twice]

/-! ### Clear, Paint and Image in sequence -/

theorem fillTexture_apply (T : Nat → Option Texture) (n : Nat) (c : color.RGBA) (k : Nat) :
    fillTexture T n c k =
      if k = n then (T n).map (fun t => { t with texel := fun _ _ => c }) else T k := by
  unfold fillTexture
  cases h : T n with
  | none =>
    by_cases hk : k = n
    · simp [hk, h]
    · simp [hk]
  | some t =>
    by_cases hk : k = n
    · simp [hk, Function.update]
    · simp [hk, Function.update]

theorem Black_fill (t : Option Texture) :
    Black (t.map (fun t => { t with texel := fun _ _ => ⟨0, 0, 0, 255⟩ })) := by
  intro tex h x y
  cases t with
  | none => simp at h
  | some t0 =>
    simp only [Option.map_some', Option.some.injEq] at h
    rw [← h]

theorem Clear_black (m : msaa) (g : Context) (ha : Attached m g)
    (hne : m.Read.Tex ≠ m.Write.Tex) :
    Attached m (m.Clear g) ∧ Black ((m.Clear g).textures m.Read.Tex) ∧
      Black ((m.Clear g).textures m.Write.Tex) := by
  obtain ⟨ha1, ha2⟩ := ha
  have hT : (m.Clear g).textures =
      fillTexture (fillTexture g.textures m.Read.Tex ⟨0, 0, 0, 255⟩) m.Write.Tex
        ⟨0, 0, 0, 255⟩ := by
    simp [msaa.Clear, glClear, glClearColor, glBindFramebuffer, ha1, ha2, unorm8]
  refine ⟨⟨ha1, ha2⟩, ?_, ?_⟩
  · rw [hT, fillTexture_apply, if_neg hne, fillTexture_apply, if_pos rfl]
    exact Black_fill _
  · rw [hT, fillTexture_apply, if_pos rfl]
    exact Black_fill _

theorem Paint_black (m : msaa) (g : Context) (ha : Attached m g)
    (hr : Black (g.textures m.Read.Tex)) (hw : Black (g.textures m.Write.Tex)) :
    Attached m (m.Paint g) ∧ Black ((m.Paint g).textures m.Read.Tex) := by
  obtain ⟨ha1, ha2⟩ := ha
  have hT : (m.Paint g).textures =
      blitTexture g.textures m.Write.Tex m.Read.Tex (wrap32 m.Width) (wrap32 m.Height) := by
    simp [msaa.Paint, glBlitFramebuffer, glBindFramebuffer, ha1, ha2]
  refine ⟨⟨ha1, ha2⟩, ?_⟩
  rw [hT]
  cases hs : g.textures m.Write.Tex with
  | none =>
    have : blitTexture g.textures m.Write.Tex m.Read.Tex (wrap32 m.Width) (wrap32 m.Height)
        = g.textures := by simp [blitTexture, hs]
    rw [this]; exact hr
  | some sT =>
    cases hd : g.textures m.Read.Tex with
    | none =>
      have : blitTexture g.textures m.Write.Tex m.Read.Tex (wrap32 m.Width) (wrap32 m.Height)
          = g.textures := by simp [blitTexture, hs, hd]
      rw [this, hd]
      intro tex h; cases h
    | some dT =>
      rw [blitTexture_dst _ _ _ _ _ sT dT hs hd]
      intro tex h x y
      simp only [Option.some.injEq] at h
      rw [← h]
      simp only [blitTexel]
      split
      · exact hw sT hs x y
      · exact hr dT hd x y

theorem newMsaa_attached (id w h n : Int) (g : Context) :
    Attached (newMsaa id w h n g).1 (newMsaa id w h n g).2 ∧
      (newMsaa id w h n g).1.Read.Tex ≠ (newMsaa id w h n g).1.Write.Tex := by
  constructor
  · constructor
    · simp [newMsaa, msaa.Clear, glClear, glClearColor, glBindFramebuffer, glBindTexture,
        glTexImage2D, glTexParameteri, glFramebufferTexture2D, glTexImage2DMultisample,
        glGenTextures, glGenFramebuffers, Function.update]
    · simp [newMsaa, msaa.Clear, glClear, glClearColor, glBindFramebuffer, glBindTexture,
        glTexImage2D, glTexParameteri, glFramebufferTexture2D, glTexImage2DMultisample,
        glGenTextures, glGenFramebuffers, Function.update]
  · simp [newMsaa, glGenTextures]

theorem readBuffer_black (t : Option Texture) (ht : Black t) (x y w h : Int) (n k : Nat)
    (hk : k % 4 ≠ 3) : (readBuffer t x y w h (List.replicate n 0)).getD k 0 = 0 := by
  have hrep : ∀ j, (List.replicate n 0).getD j 0 = 0 := by
    intro j
    rw [List.getD_eq_getElem?_getD, List.getElem?_replicate]
    split <;> rfl
  unfold readBuffer
  cases t with
  | none => exact hrep k
  | some tex =>
    simp only
    split
    · rw [List.getD_eq_getElem?_getD, List.getElem?_mapIdx, List.getElem?_replicate]
      split
      · simp only [Option.map_some', Option.getD_some, readByte]
        split
        · rw [ht tex rfl]
          have : k % 4 = 0 ∨ k % 4 = 1 ∨ k % 4 = 2 := by omega
          rcases this with h0 | h0 | h0 <;> simp [color.RGBA.channel, h0]
        · rfl
      · rfl
    · exact hrep k

theorem readback_black (m : msaa) (g : Context)
    (ha : g.colorAttachment m.Read.FBO = m.Read.Tex) (hb : Black (g.textures m.Read.Tex))
    (h0 : 0 ≤ m.Width * m.Height) (hfit : 4 * m.Width * m.Height ≤ maxAlloc) :
    ∃ pixels g', msaa.Image.readback m g = .ok (pixels, g') ∧
      (pixels.length : Int) = m.Width * m.Height * 4 ∧
      ∀ k, k % 4 ≠ 3 → pixels.getD k 0 = 0 := by
  have hfit' : 4 * m.Width * m.Height ≤ 2 ^ 48 := hfit
  have h1 : imul m.Width m.Height = m.Width * m.Height :=
    wrap64_eq _ (by omega) (by
      have : 4 * m.Width * m.Height = 4 * (m.Width * m.Height) := by ring
      omega)
  have h2 : imul (m.Width * m.Height) 4 = m.Width * m.Height * 4 :=
    wrap64_eq _ (by omega) (by
      have : 4 * m.Width * m.Height = m.Width * m.Height * 4 := by ring
      omega)
  have hle : m.Width * m.Height * 4 ≤ maxAlloc := by
    have : 4 * m.Width * m.Height = m.Width * m.Height * 4 := by ring
    rw [← this]; exact hfit
  unfold msaa.Image.readback
  simp only [h1, h2, make_ok _ (show (0 : Int) ≤ m.Width * m.Height * 4 by omega) hle]
  refine ⟨(glReadPixels 0 0 (wrap32 m.Width) (wrap32 m.Height) .RGBA .UNSIGNED_BYTE
      (List.replicate (m.Width * m.Height * 4).toNat 0)
      (glBindFramebuffer .READ_FRAMEBUFFER m.Read.FBO g)).1,
    (glReadPixels 0 0 (wrap32 m.Width) (wrap32 m.Height) .RGBA .UNSIGNED_BYTE
      (List.replicate (m.Width * m.Height * 4).toNat 0)
      (glBindFramebuffer .READ_FRAMEBUFFER m.Read.FBO g)).2, rfl, ?_, ?_⟩
  · rw [glReadPixels_length]
    simp only [List.length_replicate]
    omega
  · intro k hk
    have : (glReadPixels 0 0 (wrap32 m.Width) (wrap32 m.Height) .RGBA .UNSIGNED_BYTE
        (List.replicate (m.Width * m.Height * 4).toNat 0)
        (glBindFramebuffer .READ_FRAMEBUFFER m.Read.FBO g)).1
        = readBuffer (g.textures m.Read.Tex) 0 0 (wrap32 m.Width) (wrap32 m.Height)
          (List.replicate (m.Width * m.Height * 4).toNat 0) := by
      simp [glReadPixels, glBindFramebuffer, Context.colorBuffer, ha]
    rw [this]
    exact readBuffer_black _ hb _ _ _ _ _ _ hk

theorem cleared_Image_black (m : msaa) (g : Context) (ha : Attached m g)
    (hne : m.Read.Tex ≠ m.Write.Tex) (hW : 0 < m.Width) (hH : 0 < m.Height)
    (hfit : 4 * m.Width * m.Height ≤ maxAlloc) :
    Black ((m.Paint (m.Clear g)).colorBuffer m.Read.FBO) ∧
    ∃ img g', msaa.Image m (m.Paint (m.Clear g)) = .ok (img, g') ∧
      img.Rect = ⟨0, 0, m.Width, m.Height⟩ ∧
      ∀ x y : Int, 0 ≤ x → x < m.Width → 0 ≤ y → y < m.Height →
        img.RGBAAt x y = ⟨0, 0, 0, 255⟩ := by
  obtain ⟨hc1, hc2, hc3⟩ := Clear_black m g ha hne
  obtain ⟨hp1, hp2⟩ := Paint_black m (m.Clear g) hc1 hc2 hc3
  obtain ⟨pixels, g', hrb, hlen, hzero⟩ := readback_black m (m.Paint (m.Clear g)) hp1.1 hp2
    (mul_nonneg (le_of_lt hW) (le_of_lt hH)) hfit
  have hfit' : 4 * m.Width * m.Height ≤ 2 ^ 48 := hfit
  have he : 4 * m.Width * m.Height = m.Width * m.Height * 4 := by ring
  have hmax : (pixels.length : Int) ≤ maxAlloc := by
    rw [hlen, ← he]; exact hfit
  have hWH : m.Width ≤ m.Width * m.Height := by
    have := mul_le_mul_of_nonneg_left (show (1 : Int) ≤ m.Height by omega) (le_of_lt hW)
    omega
  have hHW : m.Height ≤ m.Width * m.Height := by
    have := mul_le_mul_of_nonneg_right (show (1 : Int) ≤ m.Width by omega) (le_of_lt hH)
    omega
  obtain ⟨img, hcv, hR, hpx⟩ :=
    Image_convert_ok m pixels (le_of_lt hW) (by omega) (le_of_lt hH) (by omega) hlen hmax
  refine ⟨?_, img, g', ?_, hR, ?_⟩
  · unfold Context.colorBuffer
    rw [hp1.1]
    exact hp2
  · unfold msaa.Image
    rw [hrb]
    simp only [hcv]
  · intro x y hx0 hx1 hy0 hy1
    obtain ⟨hi0, _, hcol⟩ := hpx x y hx0 hx1 hy0 hy1
    have hmod : (((m.Height - y - 1) * m.Width + x) * 4).toNat % 4 = 0 := by omega
    rw [hcol, hzero _ (by omega), hzero _ (by omega), hzero _ (by omega)]

/-- C7, amended. With the contents of the Read and Write framebuffers held in the
context: for every width `W > 0` and height `H > 0` such that `4 * W * H` is a length
`make` accepts (at most `maxAlloc = 2^48`), every sample count and every context,
after `newMsaa(id, W, H, n)` followed by `Clear` and `Paint` the colour buffer of the
Read framebuffer, where GL gave it storage, is opaque black at every pixel, and `Image`
returns a `W x H` image whose every pixel is `(0, 0, 0, 255)`. -/
theorem msaa_new_Clear_Paint_Image_black (id W H n : Int) (g : Context)
    (hW : 0 < W) (hH : 0 < H) (hfit : 4 * W * H ≤ maxAlloc) :
    Black (((newMsaa id W H n g).1.Paint
      ((newMsaa id W H n g).1.Clear (newMsaa id W H n g).2)).colorBuffer
        (newMsaa id W H n g).1.Read.FBO) ∧
    ∃ img g', msaa.Image (newMsaa id W H n g).1
        ((newMsaa id W H n g).1.Paint ((newMsaa id W H n g).1.Clear (newMsaa id W H n g).2))
        = .ok (img, g') ∧
      img.Rect = ⟨0, 0, W, H⟩ ∧
      ∀ x y : Int, 0 ≤ x → x < W → 0 ≤ y → y < H → img.RGBAAt x y = ⟨0, 0, 0, 255⟩ := by
  obtain ⟨ha, hne⟩ := newMsaa_attached id W H n g
  exact cleared_Image_black (newMsaa id W H n g).1 (newMsaa id W H n g).2 ha hne hW hH hfit

/-- C7, amended, at `W = H = 4`, `n = 4` in a fresh context. -/
theorem msaa_new_Clear_Paint_Image_black_witness :
    Black (((newMsaa 0 4 4 4 Context.start).1.Paint
      ((newMsaa 0 4 4 4 Context.start).1.Clear (newMsaa 0 4 4 4 Context.start).2)).colorBuffer
        (newMsaa 0 4 4 4 Context.start).1.Read.FBO) ∧
    ∃ img g', msaa.Image (newMsaa 0 4 4 4 Context.start).1
        ((newMsaa 0 4 4 4 Context.start).1.Paint
          ((newMsaa 0 4 4 4 Context.start).1.Clear (newMsaa 0 4 4 4 Context.start).2))
        = .ok (img, g') ∧
      img.Rect = ⟨0, 0, 4, 4⟩ ∧
      ∀ x y : Int, 0 ≤ x → x < 4 → 0 ≤ y → y < 4 → img.RGBAAt x y = ⟨0, 0, 0, 255⟩ :=
  msaa_new_Clear_Paint_Image_black 0 4 4 4 Context.start (by decide) (by decide) (by decide)

/-- C7 as stated fails at `W = 2^61`, `H = 1`, where the length `W * H * 4` computed by
`msaa.Image` wraps to `-2^63`, and at `W = 2^46 + 1`, `H = 1`, where the length
`2^48 + 4` exceeds `maxAlloc`: in both `make` panics. -/
theorem msaa_Image_huge_width_panics :
    (0 : Int) < 2 ^ 61 ∧
    msaa.Image (newMsaa 0 (2 ^ 61) 1 4 Context.start).1
      ((newMsaa 0 (2 ^ 61) 1 4 Context.start).1.Paint
        ((newMsaa 0 (2 ^ 61) 1 4 Context.start).1.Clear
          (newMsaa 0 (2 ^ 61) 1 4 Context.start).2))
      = .error .makeLenOutOfRange ∧
    (0 : Int) < 2 ^ 46 + 1 ∧
    msaa.Image (newMsaa 0 (2 ^ 46 + 1) 1 4 Context.start).1
      ((newMsaa 0 (2 ^ 46 + 1) 1 4 Context.start).1.Paint
        ((newMsaa 0 (2 ^ 46 + 1) 1 4 Context.start).1.Clear
          (newMsaa 0 (2 ^ 46 + 1) 1 4 Context.start).2))
      = .error .makeLenOutOfRange := by
  have hm : make (imul (imul (newMsaa 0 (2 ^ 61) 1 4 Context.start).1.Width
      (newMsaa 0 (2 ^ 61) 1 4 Context.start).1.Height) 4) = .error .makeLenOutOfRange := by
    rfl
  have hm' : make (imul (imul (newMsaa 0 (2 ^ 46 + 1) 1 4 Context.start).1.Width
      (newMsaa 0 (2 ^ 46 + 1) 1 4 Context.start).1.Height) 4)
      = .error .makeLenOutOfRange := by
    rfl
  refine ⟨by decide, ?_, by decide, ?_⟩
  · unfold msaa.Image msaa.Image.readback
    simp only [hm]
  · unfold msaa.Image msaa.Image.readback
    simp only [hm']

/-! ### The model at a 4 x 4 surface -/

theorem surface4_eq : (newMsaa 0 4 4 4 Context.start).1 = surface4 := rfl

set_option maxRecDepth 100000 in
theorem Pixels_cleared_surface4 :
    (msaa.Pixels intFloat surface4 0 0 1 1
        (surface4.Paint (surface4.Clear context4))).toOption.map Prod.fst
      = some ((List.replicate 16 [0, 0, 0, 255]).flatten) := by
  decide

set_option maxRecDepth 100000 in
theorem Image_drawn_surface4 :
    (msaa.Image surface4 (surface4.Paint contextRed)).toOption.map
        (fun r => (r.1.RGBAAt 1 3, r.1.RGBAAt 1 0, r.1.RGBAAt 0 3))
      = some (⟨255, 0, 0, 255⟩, ⟨0, 0, 0, 255⟩, ⟨0, 0, 0, 255⟩) := by
  decide

end Ink
